import Mathlib

/-!
Shallow embedding of the `tris/weatherflow` Go module (WebSocket client for
the WeatherFlow Tempest API), covering:

* `messages.go` — the message decoding layer (`UnmarshalMessage`, the custom
  positional-array unmarshalers `ObsStData.UnmarshalJSON` and
  `RapidWindData.UnmarshalJSON`, and the `GetType` / `GetDeviceID` methods);
* `weatherflow.go` — the device registry (`AddDevice` / `RemoveDevice` /
  `DeviceCount`), the backoff computation (`handleBackoff`), the subscription
  frames built by `sendListenStart`, and one iteration of the `Start` read
  loop (`readStep`).

Modelling conventions:

* A wire payload is modelled post-parse as a `JValue` (the generic JSON value
  tree); the raw-byte lexing performed by `encoding/json` is out of scope, so
  every payload considered is well-formed JSON.  JSON numbers are carried as
  exact rationals (`ℚ`); Go parses them into `float64` and the claims checked
  here never depend on floating-point rounding.
* Go's `encoding/json` behaviour is mirrored faithfully for the structs of
  this repository: unknown object keys are ignored, duplicate keys are
  processed in order (last assignment wins), a JSON `null` leaves a
  non-slice field untouched and resets a slice field, a type mismatch on a
  built-in field records the *first* such error but decoding continues, an
  error returned by a custom `UnmarshalJSON` aborts immediately, and a Go
  runtime panic inside a custom `UnmarshalJSON` (index out of range, failed
  type assertion) propagates — `encoding/json` re-raises foreign panics.
  The three outcomes are the constructors of `DRes`: `ok`, `err`, `panic`.
* Go `int` fields accept exactly the integral JSON numbers in this model
  (a `ℚ` with denominator 1); 64-bit overflow and the lexeme-level
  distinction between `7` and `7.0` are below the abstraction level used
  here, and no claim depends on them.
-/

namespace Weatherflow

/-- A parsed JSON document: the generic value tree that `json.Unmarshal`
produces for `interface{}` targets (object fields kept in document order,
so duplicate-key and ordering behaviour can be modelled). -/
inductive JValue : Type where
  | null
  | bool (b : Bool)
  | num (q : ℚ)
  | str (s : String)
  | arr (elems : List JValue)
  | obj (fields : List (String × JValue))

/-- The errors `UnmarshalMessage` and the json decoder return (the spec's
`DecodeError` taxonomy).  `typeMismatch` stands for `json.UnmarshalTypeError`;
`missingType` for `fmt.Errorf("missing 'type' field in message")`;
`unsupportedType tag` for `fmt.Errorf("unsupported message type: %s", tag)`. -/
inductive GoErr : Type where
  | typeMismatch (msg : String)
  | missingType
  | unsupportedType (tag : String)
deriving DecidableEq

/-- Outcome of running a piece of Go decoding code: a value, a returned
error, or a runtime panic (which in the real program crashes the process —
nothing in this repository recovers it). -/
inductive DRes (α : Type) : Type where
  | ok (a : α)
  | err (e : GoErr)
  | panic (msg : String)

def DRes.bind {α β : Type} : DRes α → (α → DRes β) → DRes β
  | .ok a, f => f a
  | .err e, _ => .err e
  | .panic m, _ => .panic m

instance : Monad DRes where
  pure := DRes.ok
  bind := DRes.bind

def DRes.isOk {α : Type} : DRes α → Bool
  | .ok _ => true
  | _ => false

def DRes.isErr {α : Type} : DRes α → Bool
  | .err _ => true
  | _ => false

def DRes.isPanic {α : Type} : DRes α → Bool
  | .panic _ => true
  | _ => false

/-- Go's `float64 → int` conversion: truncation toward zero. -/
def goTrunc (q : ℚ) : ℤ :=
  if 0 ≤ q then ⌊q⌋ else ⌈q⌉

/-- `xs[i]` on a Go slice: the element, or a runtime panic when out of range. -/
def goIndex (xs : List JValue) (i : ℕ) : DRes JValue :=
  match xs.get? i with
  | some v => .ok v
  | none => .panic "runtime error: index out of range"

/-- `v.(float64)`: a bare Go type assertion — panics unless the dynamic value
is a JSON number (in particular it panics on a nil interface, i.e. JSON null). -/
def asFloat64 (v : JValue) : DRes ℚ :=
  match v with
  | .num q => .ok q
  | _ => .panic "interface conversion: interface is nil or not float64"

/-- The guarded pattern `if x != nil { y := x.(float64); p = &y }` used for the
three nullable positions: null stays absent, a number is taken, anything else
is still a panicking type assertion. -/
def asOptFloat64 (v : JValue) : DRes (Option ℚ) :=
  match v with
  | .null => .ok none
  | .num q => .ok (some q)
  | _ => .panic "interface conversion: interface is not float64"

/-- `obsArray[i].(float64)` — index then assert. -/
def floatAt (xs : List JValue) (i : ℕ) : DRes ℚ :=
  (goIndex xs i).bind asFloat64

/-- `if obsArray[i] != nil { obsArray[i].(float64) }` — index then optional assert. -/
def optFloatAt (xs : List JValue) (i : ℕ) : DRes (Option ℚ) :=
  (goIndex xs i).bind asOptFloat64

/-! ### The message structs of `messages.go`

Field names and order follow the Go declarations; `Type` is a Lean keyword,
so that one field is spelled `Typ`. -/

structure ObsStStatus : Type where
  StatusCode : ℤ
  StatusMessage : String

structure ObsStSummary : Type where
  PressureTrend : String
  StrikeCount1h : ℤ
  StrikeCount3h : ℤ
  PrecipTotal1h : ℚ
  StrikeLastDist : ℤ
  StrikeLastEpoch : ℤ
  PrecipAccumLocalYesterday : ℚ
  PrecipAccumLocalYesterdayFinal : ℚ
  PrecipAnalysisTypeYesterday : ℤ
  RainingMinutes : List ℤ
  PrecipMinutesLocalDay : ℤ
  PrecipMinutesLocalYesterday : ℤ

structure ObsStData : Type where
  TimeEpoch : ℤ
  WindLull : ℚ
  WindAvg : ℚ
  WindGust : ℚ
  WindDirection : ℤ
  WindSampleInterval : ℤ
  StationPressure : Option ℚ
  AirTemperature : Option ℚ
  RelativeHumidity : Option ℚ
  Illuminance : ℤ
  UV : ℤ
  SolarRadiation : ℤ
  RainAccumulated : ℚ
  PrecipitationType : ℤ
  LightningStrikeAvgDistance : ℤ
  LightningStrikeCount : ℤ
  Battery : ℚ
  ReportInterval : ℤ
  LocalDailyRainAccumulation : ℚ
  RainAccumulatedFinal : ℚ
  LocalDailyRainAccumulationFinal : ℚ
  PrecipitationAnalysisType : ℤ

structure RapidWindData : Type where
  TimeEpoch : ℤ
  WindSpeed : ℚ
  WindDirection : ℤ

structure MessageObsSt : Type where
  Status : ObsStStatus
  DeviceID : ℤ
  Typ : String
  Source : String
  Summary : ObsStSummary
  Obs : List ObsStData

structure MessageRapidWind : Type where
  DeviceID : ℤ
  SerialNumber : String
  Typ : String
  HubSN : String
  Ob : RapidWindData

structure MessageConnectionOpened : Type where
  Typ : String

structure MessageAck : Type where
  ID : String
  Typ : String

/-- The closed set of decoded message variants (the Go `Message` interface,
whose only implementations are the four structs above). -/
inductive Message : Type where
  | obsSt (m : MessageObsSt)
  | rapidWind (m : MessageRapidWind)
  | connectionOpened (m : MessageConnectionOpened)
  | ack (m : MessageAck)

/-! ### The positional-array unmarshalers -/

/-- The straight-line body of `ObsStData.UnmarshalJSON` after
`json.Unmarshal(data, &obsArray)` succeeded: 22 fixed-position reads in
source order, each a bare index plus type assertion (positions 6–8 are
nil-guarded).  There is no length check in the source. -/
def decodeObsStArr (obsArray : List JValue) : DRes ObsStData := do
  let timeEpoch ← floatAt obsArray 0
  let windLull ← floatAt obsArray 1
  let windAvg ← floatAt obsArray 2
  let windGust ← floatAt obsArray 3
  let windDirection ← floatAt obsArray 4
  let windSampleInterval ← floatAt obsArray 5
  let stationPressure ← optFloatAt obsArray 6
  let airTemperature ← optFloatAt obsArray 7
  let relativeHumidity ← optFloatAt obsArray 8
  let illuminance ← floatAt obsArray 9
  let uv ← floatAt obsArray 10
  let solarRadiation ← floatAt obsArray 11
  let rainAccumulated ← floatAt obsArray 12
  let precipitationType ← floatAt obsArray 13
  let lightningStrikeAvgDistance ← floatAt obsArray 14
  let lightningStrikeCount ← floatAt obsArray 15
  let battery ← floatAt obsArray 16
  let reportInterval ← floatAt obsArray 17
  let localDailyRainAccumulation ← floatAt obsArray 18
  let rainAccumulatedFinal ← floatAt obsArray 19
  let localDailyRainAccumulationFinal ← floatAt obsArray 20
  let precipitationAnalysisType ← floatAt obsArray 21
  pure {
    TimeEpoch := goTrunc timeEpoch
    WindLull := windLull
    WindAvg := windAvg
    WindGust := windGust
    WindDirection := goTrunc windDirection
    WindSampleInterval := goTrunc windSampleInterval
    StationPressure := stationPressure
    AirTemperature := airTemperature
    RelativeHumidity := relativeHumidity
    Illuminance := goTrunc illuminance
    UV := goTrunc uv
    SolarRadiation := goTrunc solarRadiation
    RainAccumulated := rainAccumulated
    PrecipitationType := goTrunc precipitationType
    LightningStrikeAvgDistance := goTrunc lightningStrikeAvgDistance
    LightningStrikeCount := goTrunc lightningStrikeCount
    Battery := battery
    ReportInterval := goTrunc reportInterval
    LocalDailyRainAccumulation := localDailyRainAccumulation
    RainAccumulatedFinal := rainAccumulatedFinal
    LocalDailyRainAccumulationFinal := localDailyRainAccumulationFinal
    PrecipitationAnalysisType := goTrunc precipitationAnalysisType
  }

/-- `ObsStData.UnmarshalJSON`: `json.Unmarshal(data, &obsArray)` accepts a JSON
array (and JSON null, which leaves the slice nil — the subsequent indexing then
panics); any other document is a type-mismatch error returned to the caller. -/
def ObsStData.UnmarshalJSON (data : JValue) : DRes ObsStData :=
  match data with
  | .arr xs => decodeObsStArr xs
  | .null => decodeObsStArr []
  | _ => .err (.typeMismatch "cannot unmarshal value into slice of interface")

/-- The straight-line body of `RapidWindData.UnmarshalJSON`: three
fixed-position reads, no length check. -/
def decodeRapidWindArr (rwArray : List JValue) : DRes RapidWindData := do
  let timeEpoch ← floatAt rwArray 0
  let windSpeed ← floatAt rwArray 1
  let windDirection ← floatAt rwArray 2
  pure {
    TimeEpoch := goTrunc timeEpoch
    WindSpeed := windSpeed
    WindDirection := goTrunc windDirection
  }

/-- `RapidWindData.UnmarshalJSON`, analogous to `ObsStData.UnmarshalJSON`. -/
def RapidWindData.UnmarshalJSON (data : JValue) : DRes RapidWindData :=
  match data with
  | .arr xs => decodeRapidWindArr xs
  | .null => decodeRapidWindArr []
  | _ => .err (.typeMismatch "cannot unmarshal value into slice of interface")

/-! ### Built-in field decoding, following `encoding/json`

Decoding one JSON value into one built-in struct field yields: a new value
(`set`), no change (`skip` — JSON null is ignored for non-slice kinds), or a
recorded `UnmarshalTypeError` (`fail` — decoding of later fields continues). -/

inductive FieldRes (α : Type) : Type where
  | set (a : α)
  | skip
  | fail (e : GoErr)

/-- Decode into a Go `string` field. -/
def goString (v : JValue) : FieldRes String :=
  match v with
  | .str s => .set s
  | .null => .skip
  | _ => .fail (.typeMismatch "cannot unmarshal value into field of type string")

/-- Decode into a Go `int` field: only integral numbers are accepted. -/
def goInt (v : JValue) : FieldRes ℤ :=
  match v with
  | .num q => if q.den = 1 then .set q.num
      else .fail (.typeMismatch "cannot unmarshal number into field of type int")
  | .null => .skip
  | _ => .fail (.typeMismatch "cannot unmarshal value into field of type int")

/-- Decode into a Go `float64` field. -/
def goFloat (v : JValue) : FieldRes ℚ :=
  match v with
  | .num q => .set q
  | .null => .skip
  | _ => .fail (.typeMismatch "cannot unmarshal value into field of type float64")

/-- Decode one element of a `[]int`: a bad element records an error and leaves
the element at its zero value, and decoding continues. -/
def goIntElem (v : JValue) : ℤ × Option GoErr :=
  match v with
  | .num q => if q.den = 1 then (q.num, none)
      else (0, some (.typeMismatch "cannot unmarshal number into element of type int"))
  | .null => (0, none)
  | _ => (0, some (.typeMismatch "cannot unmarshal value into element of type int"))

def goIntListAux : List JValue → List ℤ → Option GoErr → List ℤ × Option GoErr
  | [], acc, saved => (acc.reverse, saved)
  | v :: rest, acc, saved =>
    let (n, e) := goIntElem v
    goIntListAux rest (n :: acc) (saved <|> e)

/-- Decode into a Go `[]int` field: an array elementwise, JSON null resets the
slice to nil, anything else is a type mismatch. -/
def goIntList (v : JValue) : FieldRes (List ℤ) :=
  match v with
  | .arr xs =>
    match goIntListAux xs [] none with
    | (ns, none) => .set ns
    | (_, some e) => .fail e
  | .null => .set []
  | _ => .fail (.typeMismatch "cannot unmarshal value into field of type slice of int")

/-- Fold one `FieldRes` into the running (value, first saved error) pair. -/
def applyField {σ α : Type} (acc : σ) (saved : Option GoErr) (r : FieldRes α)
    (put : σ → α → σ) : σ × Option GoErr :=
  match r with
  | .set a => (put acc a, saved)
  | .skip => (acc, saved)
  | .fail e => (acc, saved <|> some e)

/-! ### Decoding the named-field structs -/

/-- One key of an `ObsStStatus` object. -/
def statusField (acc : ObsStStatus) (saved : Option GoErr) (k : String) (v : JValue) :
    ObsStStatus × Option GoErr :=
  if k = "status_code" then
    applyField acc saved (goInt v) (fun a n => { a with StatusCode := n })
  else if k = "status_message" then
    applyField acc saved (goString v) (fun a s => { a with StatusMessage := s })
  else (acc, saved)

def decodeStatusFields : List (String × JValue) → ObsStStatus → Option GoErr →
    ObsStStatus × Option GoErr
  | [], acc, saved => (acc, saved)
  | (k, v) :: rest, acc, saved =>
    let (acc2, saved2) := statusField acc saved k v
    decodeStatusFields rest acc2 saved2

/-- The `status` field of `MessageObsSt`: a nested built-in struct — an object
merges into the current value, null is ignored, anything else is a mismatch. -/
def decodeStatusValue (acc : ObsStStatus) (saved : Option GoErr) (v : JValue) :
    ObsStStatus × Option GoErr :=
  match v with
  | .obj fs => decodeStatusFields fs acc saved
  | .null => (acc, saved)
  | _ => (acc, saved <|> some (.typeMismatch "cannot unmarshal value into field of type ObsStStatus"))

/-- One key of an `ObsStSummary` object. -/
def summaryField (acc : ObsStSummary) (saved : Option GoErr) (k : String) (v : JValue) :
    ObsStSummary × Option GoErr :=
  if k = "pressure_trend" then
    applyField acc saved (goString v) (fun a s => { a with PressureTrend := s })
  else if k = "strike_count_1h" then
    applyField acc saved (goInt v) (fun a n => { a with StrikeCount1h := n })
  else if k = "strike_count_3h" then
    applyField acc saved (goInt v) (fun a n => { a with StrikeCount3h := n })
  else if k = "precip_total_1h" then
    applyField acc saved (goFloat v) (fun a q => { a with PrecipTotal1h := q })
  else if k = "strike_last_dist" then
    applyField acc saved (goInt v) (fun a n => { a with StrikeLastDist := n })
  else if k = "strike_last_epoch" then
    applyField acc saved (goInt v) (fun a n => { a with StrikeLastEpoch := n })
  else if k = "precip_accum_local_yesterday" then
    applyField acc saved (goFloat v) (fun a q => { a with PrecipAccumLocalYesterday := q })
  else if k = "precip_accum_local_yesterday_final" then
    applyField acc saved (goFloat v) (fun a q => { a with PrecipAccumLocalYesterdayFinal := q })
  else if k = "precip_analysis_type_yesterday" then
    applyField acc saved (goInt v) (fun a n => { a with PrecipAnalysisTypeYesterday := n })
  else if k = "raining_minutes" then
    applyField acc saved (goIntList v) (fun a ns => { a with RainingMinutes := ns })
  else if k = "precip_minutes_local_day" then
    applyField acc saved (goInt v) (fun a n => { a with PrecipMinutesLocalDay := n })
  else if k = "precip_minutes_local_yesterday" then
    applyField acc saved (goInt v) (fun a n => { a with PrecipMinutesLocalYesterday := n })
  else (acc, saved)

def decodeSummaryFields : List (String × JValue) → ObsStSummary → Option GoErr →
    ObsStSummary × Option GoErr
  | [], acc, saved => (acc, saved)
  | (k, v) :: rest, acc, saved =>
    let (acc2, saved2) := summaryField acc saved k v
    decodeSummaryFields rest acc2 saved2

/-- The `summary` field of `MessageObsSt`, analogous to `decodeStatusValue`. -/
def decodeSummaryValue (acc : ObsStSummary) (saved : Option GoErr) (v : JValue) :
    ObsStSummary × Option GoErr :=
  match v with
  | .obj fs => decodeSummaryFields fs acc saved
  | .null => (acc, saved)
  | _ => (acc, saved <|> some (.typeMismatch "cannot unmarshal value into field of type ObsStSummary"))

/-- Decode the elements of the `obs` array: each element runs
`ObsStData.UnmarshalJSON`; an error from a custom unmarshaler aborts the whole
`json.Unmarshal` at once, and a panic propagates.  (Elements are built fresh
here, which matches Go whenever the target slice is empty — always the case
below, since `Obs` starts at its zero value and a repeated `obs` key is not
re-merged elementwise in this model.) -/
def decodeObsListAux : List JValue → List ObsStData → DRes (List ObsStData)
  | [], acc => .ok acc.reverse
  | v :: rest, acc =>
    match ObsStData.UnmarshalJSON v with
    | .ok d => decodeObsListAux rest (d :: acc)
    | .err e => .err e
    | .panic m => .panic m

/-- Zero values (`var message T` in Go). -/
def zeroObsStStatus : ObsStStatus := ⟨0, ""⟩

def zeroObsStSummary : ObsStSummary := ⟨"", 0, 0, 0, 0, 0, 0, 0, 0, [], 0, 0⟩

def zeroMessageObsSt : MessageObsSt := ⟨zeroObsStStatus, 0, "", "", zeroObsStSummary, []⟩

def zeroMessageRapidWind : MessageRapidWind := ⟨0, "", "", "", ⟨0, 0, 0⟩⟩

def zeroMessageConnectionOpened : MessageConnectionOpened := ⟨""⟩

def zeroMessageAck : MessageAck := ⟨"", ""⟩

/-- `json.Unmarshal(data, &message)` for `MessageObsSt`: the object's keys in
document order; unknown keys skipped; built-in mismatches recorded (first one
wins) while decoding continues; the `obs` field may abort with an error or a
panic from `ObsStData.UnmarshalJSON`. -/
def decodeMessageObsStFields : List (String × JValue) → MessageObsSt → Option GoErr →
    DRes MessageObsSt
  | [], acc, saved =>
    match saved with
    | some e => .err e
    | none => .ok acc
  | (k, v) :: rest, acc, saved =>
    if k = "status" then
      let (st, saved2) := decodeStatusValue acc.Status saved v
      decodeMessageObsStFields rest { acc with Status := st } saved2
    else if k = "device_id" then
      let (acc2, saved2) := applyField acc saved (goInt v) (fun a n => { a with DeviceID := n })
      decodeMessageObsStFields rest acc2 saved2
    else if k = "type" then
      let (acc2, saved2) := applyField acc saved (goString v) (fun a s => { a with Typ := s })
      decodeMessageObsStFields rest acc2 saved2
    else if k = "source" then
      let (acc2, saved2) := applyField acc saved (goString v) (fun a s => { a with Source := s })
      decodeMessageObsStFields rest acc2 saved2
    else if k = "summary" then
      let (sm, saved2) := decodeSummaryValue acc.Summary saved v
      decodeMessageObsStFields rest { acc with Summary := sm } saved2
    else if k = "obs" then
      match v with
      | .arr vs =>
        match decodeObsListAux vs [] with
        | .ok ds => decodeMessageObsStFields rest { acc with Obs := ds } saved
        | .err e => .err e
        | .panic m => .panic m
      | .null => decodeMessageObsStFields rest { acc with Obs := [] } saved
      | _ => decodeMessageObsStFields rest acc
          (saved <|> some (.typeMismatch "cannot unmarshal value into field of type slice of ObsStData"))
    else decodeMessageObsStFields rest acc saved

/-- `json.Unmarshal(data, &message)` for `MessageRapidWind`; the `ob` field
runs `RapidWindData.UnmarshalJSON` (error aborts, panic propagates — including
on a JSON null, which that unmarshaler receives and indexes). -/
def decodeMessageRapidWindFields : List (String × JValue) → MessageRapidWind → Option GoErr →
    DRes MessageRapidWind
  | [], acc, saved =>
    match saved with
    | some e => .err e
    | none => .ok acc
  | (k, v) :: rest, acc, saved =>
    if k = "device_id" then
      let (acc2, saved2) := applyField acc saved (goInt v) (fun a n => { a with DeviceID := n })
      decodeMessageRapidWindFields rest acc2 saved2
    else if k = "serial_number" then
      let (acc2, saved2) := applyField acc saved (goString v) (fun a s => { a with SerialNumber := s })
      decodeMessageRapidWindFields rest acc2 saved2
    else if k = "type" then
      let (acc2, saved2) := applyField acc saved (goString v) (fun a s => { a with Typ := s })
      decodeMessageRapidWindFields rest acc2 saved2
    else if k = "hub_sn" then
      let (acc2, saved2) := applyField acc saved (goString v) (fun a s => { a with HubSN := s })
      decodeMessageRapidWindFields rest acc2 saved2
    else if k = "ob" then
      match RapidWindData.UnmarshalJSON v with
      | .ok d => decodeMessageRapidWindFields rest { acc with Ob := d } saved
      | .err e => .err e
      | .panic m => .panic m
    else decodeMessageRapidWindFields rest acc saved

/-- `json.Unmarshal(data, &message)` for `MessageConnectionOpened`. -/
def decodeMessageConnectionOpenedFields : List (String × JValue) → MessageConnectionOpened →
    Option GoErr → DRes MessageConnectionOpened
  | [], acc, saved =>
    match saved with
    | some e => .err e
    | none => .ok acc
  | (k, v) :: rest, acc, saved =>
    if k = "type" then
      let (acc2, saved2) := applyField acc saved (goString v) (fun a s => { a with Typ := s })
      decodeMessageConnectionOpenedFields rest acc2 saved2
    else decodeMessageConnectionOpenedFields rest acc saved

/-- `json.Unmarshal(data, &message)` for `MessageAck`. -/
def decodeMessageAckFields : List (String × JValue) → MessageAck → Option GoErr →
    DRes MessageAck
  | [], acc, saved =>
    match saved with
    | some e => .err e
    | none => .ok acc
  | (k, v) :: rest, acc, saved =>
    if k = "id" then
      let (acc2, saved2) := applyField acc saved (goString v) (fun a s => { a with ID := s })
      decodeMessageAckFields rest acc2 saved2
    else if k = "type" then
      let (acc2, saved2) := applyField acc saved (goString v) (fun a s => { a with Typ := s })
      decodeMessageAckFields rest acc2 saved2
    else decodeMessageAckFields rest acc saved

/-- The value a duplicate-tolerant `map[string]interface{}` holds for a key:
the last occurrence wins. -/
def lookupLast : List (String × JValue) → String → Option JValue
  | [], _ => none
  | (k, v) :: rest, key =>
    match lookupLast rest key with
    | some w => some w
    | none => if k = key then some v else none

/-- `UnmarshalMessage` from `messages.go`: parse generically, read the `type`
tag (`rawMessage["type"].(string)` with the comma-ok form — a missing key or a
non-string value both fail the assertion), then dispatch to one of the four
typed decodings or report the unsupported tag. -/
def UnmarshalMessage (data : JValue) : DRes Message :=
  match data with
  | .obj fields =>
    match lookupLast fields "type" with
    | some (.str messageType) =>
      if messageType = "obs_st" then
        match decodeMessageObsStFields fields zeroMessageObsSt none with
        | .ok m => .ok (.obsSt m)
        | .err e => .err e
        | .panic s => .panic s
      else if messageType = "rapid_wind" then
        match decodeMessageRapidWindFields fields zeroMessageRapidWind none with
        | .ok m => .ok (.rapidWind m)
        | .err e => .err e
        | .panic s => .panic s
      else if messageType = "connection_opened" then
        match decodeMessageConnectionOpenedFields fields zeroMessageConnectionOpened none with
        | .ok m => .ok (.connectionOpened m)
        | .err e => .err e
        | .panic s => .panic s
      else if messageType = "ack" then
        match decodeMessageAckFields fields zeroMessageAck none with
        | .ok m => .ok (.ack m)
        | .err e => .err e
        | .panic s => .panic s
      else .err (.unsupportedType messageType)
    | _ => .err .missingType
  | _ => .err (.typeMismatch "cannot unmarshal value into map of string to interface")

/-- The four `GetType` methods. -/
def Message.GetType : Message → String
  | .obsSt m => m.Typ
  | .rapidWind m => m.Typ
  | .connectionOpened m => m.Typ
  | .ack m => m.Typ

/-- The four `GetDeviceID` methods: observation variants return their
`DeviceID` with `true`; the two control variants return `-1` with `false`. -/
def Message.GetDeviceID : Message → ℤ × Bool
  | .obsSt m => (m.DeviceID, true)
  | .rapidWind m => (m.DeviceID, true)
  | .connectionOpened _ => (-1, false)
  | .ack _ => (-1, false)

/-! ### `weatherflow.go`: registry, backoff, subscription frames, read loop -/

/-- `c.deviceIDs map[int]struct{}` — exactly a set of device ids. -/
def AddDevice (deviceIDs : Finset ℤ) (id : ℤ) : Finset ℤ :=
  insert id deviceIDs

def RemoveDevice (deviceIDs : Finset ℤ) (id : ℤ) : Finset ℤ :=
  deviceIDs.erase id

def DeviceCount (deviceIDs : Finset ℤ) : ℕ :=
  deviceIDs.card

def initialBackoff : ℕ := 2

def maxBackoff : ℕ := 32

/-- `handleBackoff`, in seconds: no sleep while the error counter is zero,
otherwise `math.Min(math.Pow(initialBackoff, errors), maxBackoff)`.  The
float64 arithmetic is exact here: `2^n` is an exact float until far past the
point where the cap at 32 takes over (and `math.Pow` overflowing to infinity
still yields 32 under `math.Min`), so natural-number arithmetic coincides. -/
def handleBackoff (errors : ℕ) : ℕ :=
  if errors = 0 then 0
  else min (initialBackoff ^ errors) maxBackoff

/-- One outbound control frame, as built by `sendListenStart` /
`sendListenStop`: a `type`, `device_id`, `id` JSON object. -/
structure Outbound : Type where
  typ : String
  device_id : ℤ
  idTag : String
deriving DecidableEq

def startMessage (id : ℤ) : Outbound :=
  ⟨"listen_start", id, "listen_start_" ++ toString id⟩

def rapidStartMessage (id : ℤ) : Outbound :=
  ⟨"listen_rapid_start", id, "listen_rapid_start_" ++ toString id⟩

/-- `sendListenStart(id)` writes these two frames, in this order, each with
its own `wsjson.Write` call (a failed first write does not stop the second). -/
def sendListenStart (id : ℤ) : List Outbound :=
  [startMessage id, rapidStartMessage id]

/-- All frames emitted by the `connection_opened` handler's loop
`for id := range c.deviceIDs { c.sendListenStart(id) }` — map iteration order
is unspecified in Go, so the emission is modelled as the set of frames. -/
def subscriptionFrames (deviceIDs : Finset ℤ) : Finset Outbound :=
  deviceIDs.biUnion (fun id => {startMessage id, rapidStartMessage id})

/-- The mutable client fields the read loop touches. -/
structure ClientState : Type where
  deviceIDs : Finset ℤ
  errors : ℕ
  ready : Bool

/-- The frame kinds of the websocket library that matter to the loop:
`websocket.MessageText` versus anything else. -/
inductive FrameKind : Type where
  | text
  | binary
deriving DecidableEq

/-- What one `select` round of the read loop observes: the idle ticker fired,
`conn.Read` failed (a cancellation error is not counted), or a frame arrived. -/
inductive ReadResult : Type where
  | tick
  | readErrCanceled
  | readErr
  | frame (kind : FrameKind) (payload : JValue)

/-- What the iteration does to the loop: keep reading the same connection,
break out of `readLoop` (and reconnect), or crash on an unrecovered panic. -/
inductive LoopCtl : Type where
  | cont
  | brk
  | crash
deriving DecidableEq

structure StepResult : Type where
  state : ClientState
  dispatched : List Message
  sent : Finset Outbound
  ctl : LoopCtl

/-- One iteration of the `readLoop` body in `Client.Start` (lines 141–197):

* ticker fired → `break readLoop`, no error counted;
* read error → counter incremented unless the error is `context.Canceled`,
  then `break readLoop`;
* non-text frame → counter incremented, `continue` (the loop keeps reading
  the same connection);
* undecodable text frame → counter incremented, `continue`;
* decoded message → dispatch on the variant: observations go to `onMessage`,
  an ack is only logged, `connection_opened` sets `ready` and replays a
  subscription per registered device — and afterwards, for a*ll* of these,
  `c.errors = 1` ("One good message resets the error counter", floored at 1
  to keep a minimum backoff).  Failed subscription writes increment the
  counter inside the branch, but the unconditional `c.errors = 1` that
  follows makes that invisible in the post-state, so sends are modelled as
  effects only.  A decode panic is not recovered anywhere: the goroutine
  dies (`crash`). -/
def readStep (s : ClientState) (r : ReadResult) : StepResult :=
  match r with
  | .tick => ⟨s, [], ∅, .brk⟩
  | .readErrCanceled => ⟨s, [], ∅, .brk⟩
  | .readErr => ⟨{ s with errors := s.errors + 1 }, [], ∅, .brk⟩
  | .frame kind payload =>
    match kind with
    | .binary => ⟨{ s with errors := s.errors + 1 }, [], ∅, .cont⟩
    | .text =>
      match UnmarshalMessage payload with
      | .err _ => ⟨{ s with errors := s.errors + 1 }, [], ∅, .cont⟩
      | .panic _ => ⟨s, [], ∅, .crash⟩
      | .ok m =>
        match m with
        | .rapidWind _ => ⟨{ s with errors := 1 }, [m], ∅, .cont⟩
        | .obsSt _ => ⟨{ s with errors := 1 }, [m], ∅, .cont⟩
        | .ack _ => ⟨{ s with errors := 1 }, [], ∅, .cont⟩
        | .connectionOpened _ =>
          ⟨{ s with errors := 1, ready := true }, [], subscriptionFrames s.deviceIDs, .cont⟩

/-! ### Shape predicates and concrete payloads used by the theorems below -/

/-- The positions `ObsStData.UnmarshalJSON` asserts to be numbers outright. -/
def obsFixedIdx : List ℕ := [0, 1, 2, 3, 4, 5, 9, 10, 11, 12, 13, 14, 15, 16, 17, 18, 19, 20, 21]

/-- Position `i` holds a JSON number. -/
def numAt (xs : List JValue) (i : ℕ) : Prop :=
  ∃ q, xs.get? i = some (.num q)

/-- Position `i` holds a JSON number or null (the nullable positions 6–8). -/
def numOrNullAt (xs : List JValue) (i : ℕ) : Prop :=
  xs.get? i = some .null ∨ numAt xs i

/-- The exact shapes of `obs` tuple an `ObsStData.UnmarshalJSON` run survives. -/
def obsWellFormed (xs : List JValue) : Prop :=
  (∀ i ∈ obsFixedIdx, numAt xs i) ∧ ∀ i ∈ ([6, 7, 8] : List ℕ), numOrNullAt xs i

/-- Likewise for the 3-position `ob` tuple of `rapid_wind`. -/
def rapidWellFormed (xs : List JValue) : Prop :=
  numAt xs 0 ∧ numAt xs 1 ∧ numAt xs 2

/-- An `ack` payload. -/
def ackPayload : JValue := .obj [("type", .str "ack"), ("id", .str "x")]

/-- A `connection_opened` payload. -/
def connectionOpenedPayload : JValue := .obj [("type", .str "connection_opened")]

/-- An `obs_st` payload whose single obs tuple has 3 elements instead of 22. -/
def obsStShortPayload : JValue :=
  .obj [("type", .str "obs_st"), ("obs", .arr [.arr [.num 1, .num 2, .num 3]])]

/-- A `rapid_wind` payload whose ob tuple has 1 element instead of 3. -/
def rapidWindShortPayload : JValue :=
  .obj [("type", .str "rapid_wind"), ("ob", .arr [.num 1])]

/-- A full-length obs tuple carrying a string at numeric position 2. -/
def obsBadElemTuple : List JValue :=
  [.num 0, .num 1, .str "oops", .num 3, .num 4, .num 5, .num 6, .num 7, .num 8,
   .num 9, .num 10, .num 11, .num 12, .num 13, .num 14, .num 15, .num 16,
   .num 17, .num 18, .num 19, .num 20, .num 21]

/-- An `obs_st` payload with the bad tuple above. -/
def obsStBadElemPayload : JValue :=
  .obj [("type", .str "obs_st"), ("obs", .arr [.arr obsBadElemTuple])]

/-- A well-formed 22-position obs tuple with null pressure/temperature/humidity. -/
def obsNullTuple : List JValue :=
  [.num 10, .num 1, .num 2, .num 3, .num 4, .num 5, .null, .null, .null,
   .num 9, .num 10, .num 11, .num 12, .num 13, .num 14, .num 15, .num 16,
   .num 17, .num 18, .num 19, .num 20, .num 21]

/-- A well-formed `rapid_wind` payload. -/
def rapidWindPayload : JValue :=
  .obj [("type", .str "rapid_wind"), ("device_id", .num 7),
    ("ob", .arr [.num 1, .num 2, .num 3])]

/-- What `obsNullTuple` decodes to. -/
def obsNullDecoded : ObsStData :=
  ⟨goTrunc 10, 1, 2, 3, goTrunc 4, goTrunc 5, none, none, none, goTrunc 9,
   goTrunc 10, goTrunc 11, 12, goTrunc 13, goTrunc 14, goTrunc 15, 16,
   goTrunc 17, 18, 19, 20, goTrunc 21⟩

/-- What `rapidWindPayload` decodes to. -/
def rapidWindDecoded : MessageRapidWind :=
  ⟨7, "", "rapid_wind", "", ⟨goTrunc 1, 2, goTrunc 3⟩⟩

end Weatherflow

/-! ## Theorems -/

namespace Weatherflow

@[simp] theorem DRes.bind_is_bind {α β : Type} (x : DRes α) (f : α → DRes β) :
    x >>= f = DRes.bind x f := rfl

@[simp] theorem DRes.pure_is_ok {α : Type} (a : α) : (pure a : DRes α) = DRes.ok a := rfl

@[simp] theorem DRes.ok_bind {α β : Type} (a : α) (f : α → DRes β) :
    DRes.bind (.ok a) f = f a := rfl

@[simp] theorem DRes.err_bind {α β : Type} (e : GoErr) (f : α → DRes β) :
    DRes.bind (.err e) f = .err e := rfl

@[simp] theorem DRes.panic_bind {α β : Type} (m : String) (f : α → DRes β) :
    DRes.bind (.panic m) f = .panic m := rfl

theorem DRes.bind_eq_ok {α β : Type} {x : DRes α} {f : α → DRes β} {b : β} :
    DRes.bind x f = .ok b ↔ ∃ a, x = .ok a ∧ f a = .ok b := by
  cases x <;> simp [DRes.bind]

theorem DRes.bind_eq_err {α β : Type} {x : DRes α} {f : α → DRes β} {e : GoErr} :
    DRes.bind x f = .err e ↔ x = .err e ∨ ∃ a, x = .ok a ∧ f a = .err e := by
  cases x <;> simp [DRes.bind]

theorem floatAt_eq_ok {xs : List JValue} {i : ℕ} {q : ℚ} :
    floatAt xs i = .ok q ↔ xs.get? i = some (.num q) := by
  unfold floatAt goIndex
  cases h : xs.get? i with
  | none => simp
  | some v => cases v <;> simp [asFloat64]

theorem floatAt_eq_err {xs : List JValue} {i : ℕ} {e : GoErr} :
    floatAt xs i = .err e ↔ False := by
  unfold floatAt goIndex
  cases h : xs.get? i with
  | none => simp
  | some v => cases v <;> simp [asFloat64]

theorem optFloatAt_eq_ok {xs : List JValue} {i : ℕ} {o : Option ℚ} :
    optFloatAt xs i = .ok o ↔
      (xs.get? i = some .null ∧ o = none) ∨ ∃ q, xs.get? i = some (.num q) ∧ o = some q := by
  unfold optFloatAt goIndex
  cases h : xs.get? i with
  | none => simp
  | some v => cases v <;> simp [asOptFloat64, eq_comm]

theorem optFloatAt_eq_err {xs : List JValue} {i : ℕ} {e : GoErr} :
    optFloatAt xs i = .err e ↔ False := by
  unfold optFloatAt goIndex
  cases h : xs.get? i with
  | none => simp
  | some v => cases v <;> simp [asOptFloat64]

end Weatherflow

namespace Weatherflow

theorem decodeObsStArr_eq_err {xs : List JValue} {e : GoErr} :
    decodeObsStArr xs = .err e ↔ False := by
  simp [decodeObsStArr, DRes.bind_eq_err, DRes.bind_eq_ok, floatAt_eq_err,
    floatAt_eq_ok, optFloatAt_eq_err, optFloatAt_eq_ok]

/-- Everything a successful `decodeObsStArr` run certifies: every asserted
position held a number, and each nullable position either held null (decoded
absent) or a number (decoded present). -/
theorem decodeObsStArr_ok_elim {xs : List JValue} {obs : ObsStData}
    (h : decodeObsStArr xs = .ok obs) :
    (∀ i ∈ obsFixedIdx, numAt xs i) ∧
    ((xs.get? 6 = some .null ∧ obs.StationPressure = none) ∨
      ∃ q, xs.get? 6 = some (.num q) ∧ obs.StationPressure = some q) ∧
    ((xs.get? 7 = some .null ∧ obs.AirTemperature = none) ∨
      ∃ q, xs.get? 7 = some (.num q) ∧ obs.AirTemperature = some q) ∧
    ((xs.get? 8 = some .null ∧ obs.RelativeHumidity = none) ∨
      ∃ q, xs.get? 8 = some (.num q) ∧ obs.RelativeHumidity = some q) := by
  simp only [decodeObsStArr, DRes.bind_is_bind, DRes.pure_is_ok, DRes.bind_eq_ok,
    DRes.ok.injEq, floatAt_eq_ok, optFloatAt_eq_ok] at h
  obtain ⟨q0, h0, q1, h1, q2, h2, q3, h3, q4, h4, q5, h5, o6, h6, o7, h7, o8, h8,
    q9, h9, q10, h10, q11, h11, q12, h12, q13, h13, q14, h14, q15, h15, q16, h16,
    q17, h17, q18, h18, q19, h19, q20, h20, q21, h21, hobs⟩ := h
  refine ⟨?_, ?_, ?_, ?_⟩
  · intro i hi
    fin_cases hi <;>
      first
      | exact ⟨q0, h0⟩ | exact ⟨q1, h1⟩ | exact ⟨q2, h2⟩ | exact ⟨q3, h3⟩
      | exact ⟨q4, h4⟩ | exact ⟨q5, h5⟩ | exact ⟨q9, h9⟩ | exact ⟨q10, h10⟩
      | exact ⟨q11, h11⟩ | exact ⟨q12, h12⟩ | exact ⟨q13, h13⟩ | exact ⟨q14, h14⟩
      | exact ⟨q15, h15⟩ | exact ⟨q16, h16⟩ | exact ⟨q17, h17⟩ | exact ⟨q18, h18⟩
      | exact ⟨q19, h19⟩ | exact ⟨q20, h20⟩ | exact ⟨q21, h21⟩
  · rcases h6 with ⟨hn, ho⟩ | ⟨q6, hn, ho⟩
    · exact Or.inl ⟨hn, by subst hobs; simpa using ho⟩
    · exact Or.inr ⟨q6, hn, by subst hobs; simpa using ho⟩
  · rcases h7 with ⟨hn, ho⟩ | ⟨q7, hn, ho⟩
    · exact Or.inl ⟨hn, by subst hobs; simpa using ho⟩
    · exact Or.inr ⟨q7, hn, by subst hobs; simpa using ho⟩
  · rcases h8 with ⟨hn, ho⟩ | ⟨q8, hn, ho⟩
    · exact Or.inl ⟨hn, by subst hobs; simpa using ho⟩
    · exact Or.inr ⟨q8, hn, by subst hobs; simpa using ho⟩

theorem decodeObsStArr_ok_wf {xs : List JValue} {obs : ObsStData}
    (h : decodeObsStArr xs = .ok obs) : obsWellFormed xs := by
  obtain ⟨hfix, h6, h7, h8⟩ := decodeObsStArr_ok_elim h
  refine ⟨hfix, ?_⟩
  intro i hi
  fin_cases hi
  · rcases h6 with ⟨hn, _⟩ | ⟨q, hn, _⟩
    · exact Or.inl hn
    · exact Or.inr ⟨q, hn⟩
  · rcases h7 with ⟨hn, _⟩ | ⟨q, hn, _⟩
    · exact Or.inl hn
    · exact Or.inr ⟨q, hn⟩
  · rcases h8 with ⟨hn, _⟩ | ⟨q, hn, _⟩
    · exact Or.inl hn
    · exact Or.inr ⟨q, hn⟩

/-- A malformed tuple cannot yield an error: the only non-ok outcome of the
positional reads is a runtime panic. -/
theorem decodeObsStArr_panic_of_not_wf {xs : List JValue}
    (h : ¬ obsWellFormed xs) : (decodeObsStArr xs).isPanic = true := by
  rcases hr : decodeObsStArr xs with obs | e | m
  · exact absurd (decodeObsStArr_ok_wf hr) h
  · exact absurd hr (by simp [decodeObsStArr_eq_err])
  · rfl

theorem obsWellFormed_length {xs : List JValue} (h : obsWellFormed xs) :
    22 ≤ xs.length := by
  have h21 := h.1 21 (by simp [obsFixedIdx])
  obtain ⟨q, hq⟩ := h21
  obtain ⟨hlt, -⟩ := List.get?_eq_some.mp hq
  omega

theorem decodeObsStArr_panic_of_short {xs : List JValue} (h : xs.length < 22) :
    (decodeObsStArr xs).isPanic = true := by
  refine decodeObsStArr_panic_of_not_wf (fun hwf => ?_)
  have := obsWellFormed_length hwf
  omega

/-- Every index the decoder touches is one of the 22 schema positions. -/
theorem lt22_mem {i : ℕ} (h : i < 22) :
    i ∈ obsFixedIdx ∨ i ∈ ([6, 7, 8] : List ℕ) := by
  interval_cases i <;> simp [obsFixedIdx]

theorem decodeObsStArr_panic_of_bad {xs : List JValue} {i : ℕ} {v : JValue}
    (hi : i < 22) (hv : xs.get? i = some v)
    (hnum : ∀ q, v ≠ JValue.num q) (hnull : v ≠ JValue.null) :
    (decodeObsStArr xs).isPanic = true := by
  refine decodeObsStArr_panic_of_not_wf (fun hwf => ?_)
  rcases lt22_mem hi with hmem | hmem
  · obtain ⟨q, hq⟩ := hwf.1 i hmem
    rw [hv] at hq
    exact hnum q (by injection hq)
  · rcases hwf.2 i hmem with hq | ⟨q, hq⟩
    · rw [hv] at hq
      exact hnull (by injection hq)
    · rw [hv] at hq
      exact hnum q (by injection hq)

end Weatherflow

namespace Weatherflow

theorem floatAt_append {xs ys : List JValue} {i : ℕ} (h : i < xs.length) :
    floatAt (xs ++ ys) i = floatAt xs i := by
  unfold floatAt goIndex
  rw [List.get?_append h]

theorem optFloatAt_append {xs ys : List JValue} {i : ℕ} (h : i < xs.length) :
    optFloatAt (xs ++ ys) i = optFloatAt xs i := by
  unfold optFloatAt goIndex
  rw [List.get?_append h]

/-- The 22 positional reads never look past position 21: appending extra
elements to a full-length tuple does not change the decoding. -/
theorem decodeObsStArr_append {xs ys : List JValue} (h : xs.length = 22) :
    decodeObsStArr (xs ++ ys) = decodeObsStArr xs := by
  have e0 : floatAt (xs ++ ys) 0 = floatAt xs 0 := floatAt_append (by omega)
  have e1 : floatAt (xs ++ ys) 1 = floatAt xs 1 := floatAt_append (by omega)
  have e2 : floatAt (xs ++ ys) 2 = floatAt xs 2 := floatAt_append (by omega)
  have e3 : floatAt (xs ++ ys) 3 = floatAt xs 3 := floatAt_append (by omega)
  have e4 : floatAt (xs ++ ys) 4 = floatAt xs 4 := floatAt_append (by omega)
  have e5 : floatAt (xs ++ ys) 5 = floatAt xs 5 := floatAt_append (by omega)
  have e6 : optFloatAt (xs ++ ys) 6 = optFloatAt xs 6 := optFloatAt_append (by omega)
  have e7 : optFloatAt (xs ++ ys) 7 = optFloatAt xs 7 := optFloatAt_append (by omega)
  have e8 : optFloatAt (xs ++ ys) 8 = optFloatAt xs 8 := optFloatAt_append (by omega)
  have e9 : floatAt (xs ++ ys) 9 = floatAt xs 9 := floatAt_append (by omega)
  have e10 : floatAt (xs ++ ys) 10 = floatAt xs 10 := floatAt_append (by omega)
  have e11 : floatAt (xs ++ ys) 11 = floatAt xs 11 := floatAt_append (by omega)
  have e12 : floatAt (xs ++ ys) 12 = floatAt xs 12 := floatAt_append (by omega)
  have e13 : floatAt (xs ++ ys) 13 = floatAt xs 13 := floatAt_append (by omega)
  have e14 : floatAt (xs ++ ys) 14 = floatAt xs 14 := floatAt_append (by omega)
  have e15 : floatAt (xs ++ ys) 15 = floatAt xs 15 := floatAt_append (by omega)
  have e16 : floatAt (xs ++ ys) 16 = floatAt xs 16 := floatAt_append (by omega)
  have e17 : floatAt (xs ++ ys) 17 = floatAt xs 17 := floatAt_append (by omega)
  have e18 : floatAt (xs ++ ys) 18 = floatAt xs 18 := floatAt_append (by omega)
  have e19 : floatAt (xs ++ ys) 19 = floatAt xs 19 := floatAt_append (by omega)
  have e20 : floatAt (xs ++ ys) 20 = floatAt xs 20 := floatAt_append (by omega)
  have e21 : floatAt (xs ++ ys) 21 = floatAt xs 21 := floatAt_append (by omega)
  simp only [decodeObsStArr, e0, e1, e2, e3, e4, e5, e6, e7, e8, e9, e10, e11,
    e12, e13, e14, e15, e16, e17, e18, e19, e20, e21]

/-- A well-formed tuple decodes successfully. -/
theorem decodeObsStArr_ok_of_wf {xs : List JValue} (h : obsWellFormed xs) :
    ∃ obs, decodeObsStArr xs = .ok obs := by
  obtain ⟨hfix, hnul⟩ := h
  obtain ⟨q0, h0⟩ := hfix 0 (by simp [obsFixedIdx])
  obtain ⟨q1, h1⟩ := hfix 1 (by simp [obsFixedIdx])
  obtain ⟨q2, h2⟩ := hfix 2 (by simp [obsFixedIdx])
  obtain ⟨q3, h3⟩ := hfix 3 (by simp [obsFixedIdx])
  obtain ⟨q4, h4⟩ := hfix 4 (by simp [obsFixedIdx])
  obtain ⟨q5, h5⟩ := hfix 5 (by simp [obsFixedIdx])
  obtain ⟨q9, h9⟩ := hfix 9 (by simp [obsFixedIdx])
  obtain ⟨q10, h10⟩ := hfix 10 (by simp [obsFixedIdx])
  obtain ⟨q11, h11⟩ := hfix 11 (by simp [obsFixedIdx])
  obtain ⟨q12, h12⟩ := hfix 12 (by simp [obsFixedIdx])
  obtain ⟨q13, h13⟩ := hfix 13 (by simp [obsFixedIdx])
  obtain ⟨q14, h14⟩ := hfix 14 (by simp [obsFixedIdx])
  obtain ⟨q15, h15⟩ := hfix 15 (by simp [obsFixedIdx])
  obtain ⟨q16, h16⟩ := hfix 16 (by simp [obsFixedIdx])
  obtain ⟨q17, h17⟩ := hfix 17 (by simp [obsFixedIdx])
  obtain ⟨q18, h18⟩ := hfix 18 (by simp [obsFixedIdx])
  obtain ⟨q19, h19⟩ := hfix 19 (by simp [obsFixedIdx])
  obtain ⟨q20, h20⟩ := hfix 20 (by simp [obsFixedIdx])
  obtain ⟨q21, h21⟩ := hfix 21 (by simp [obsFixedIdx])
  have h6 := hnul 6 (by simp)
  have h7 := hnul 7 (by simp)
  have h8 := hnul 8 (by simp)
  have s6 : ∃ o, optFloatAt xs 6 = .ok o := by
    rcases h6 with hn | ⟨q, hq⟩
    · exact ⟨none, optFloatAt_eq_ok.mpr (Or.inl ⟨hn, rfl⟩)⟩
    · exact ⟨some q, optFloatAt_eq_ok.mpr (Or.inr ⟨q, hq, rfl⟩)⟩
  have s7 : ∃ o, optFloatAt xs 7 = .ok o := by
    rcases h7 with hn | ⟨q, hq⟩
    · exact ⟨none, optFloatAt_eq_ok.mpr (Or.inl ⟨hn, rfl⟩)⟩
    · exact ⟨some q, optFloatAt_eq_ok.mpr (Or.inr ⟨q, hq, rfl⟩)⟩
  have s8 : ∃ o, optFloatAt xs 8 = .ok o := by
    rcases h8 with hn | ⟨q, hq⟩
    · exact ⟨none, optFloatAt_eq_ok.mpr (Or.inl ⟨hn, rfl⟩)⟩
    · exact ⟨some q, optFloatAt_eq_ok.mpr (Or.inr ⟨q, hq, rfl⟩)⟩
  obtain ⟨o6, s6⟩ := s6
  obtain ⟨o7, s7⟩ := s7
  obtain ⟨o8, s8⟩ := s8
  refine ⟨⟨goTrunc q0, q1, q2, q3, goTrunc q4, goTrunc q5, o6, o7, o8,
    goTrunc q9, goTrunc q10, goTrunc q11, q12, goTrunc q13, goTrunc q14,
    goTrunc q15, q16, goTrunc q17, q18, q19, q20, goTrunc q21⟩, ?_⟩
  simp only [decodeObsStArr, DRes.bind_is_bind, DRes.pure_is_ok,
    floatAt_eq_ok.mpr h0, floatAt_eq_ok.mpr h1, floatAt_eq_ok.mpr h2,
    floatAt_eq_ok.mpr h3, floatAt_eq_ok.mpr h4, floatAt_eq_ok.mpr h5,
    s6, s7, s8,
    floatAt_eq_ok.mpr h9, floatAt_eq_ok.mpr h10, floatAt_eq_ok.mpr h11,
    floatAt_eq_ok.mpr h12, floatAt_eq_ok.mpr h13, floatAt_eq_ok.mpr h14,
    floatAt_eq_ok.mpr h15, floatAt_eq_ok.mpr h16, floatAt_eq_ok.mpr h17,
    floatAt_eq_ok.mpr h18, floatAt_eq_ok.mpr h19, floatAt_eq_ok.mpr h20,
    floatAt_eq_ok.mpr h21, DRes.ok_bind]

/-! Rapid wind tuple analogues. -/

theorem decodeRapidWindArr_eq_err {xs : List JValue} {e : GoErr} :
    decodeRapidWindArr xs = .err e ↔ False := by
  simp [decodeRapidWindArr, DRes.bind_eq_err, DRes.bind_eq_ok, floatAt_eq_err,
    floatAt_eq_ok]

theorem decodeRapidWindArr_ok_wf {xs : List JValue} {rw : RapidWindData}
    (h : decodeRapidWindArr xs = .ok rw) : rapidWellFormed xs := by
  simp only [decodeRapidWindArr, DRes.bind_is_bind, DRes.pure_is_ok, DRes.bind_eq_ok,
    DRes.ok.injEq, floatAt_eq_ok] at h
  obtain ⟨q0, h0, q1, h1, q2, h2, -⟩ := h
  exact ⟨⟨q0, h0⟩, ⟨q1, h1⟩, ⟨q2, h2⟩⟩

theorem decodeRapidWindArr_panic_of_not_wf {xs : List JValue}
    (h : ¬ rapidWellFormed xs) : (decodeRapidWindArr xs).isPanic = true := by
  rcases hr : decodeRapidWindArr xs with rw | e | m
  · exact absurd (decodeRapidWindArr_ok_wf hr) h
  · exact absurd hr (by simp [decodeRapidWindArr_eq_err])
  · rfl

theorem decodeRapidWindArr_panic_of_short {xs : List JValue} (h : xs.length < 3) :
    (decodeRapidWindArr xs).isPanic = true := by
  refine decodeRapidWindArr_panic_of_not_wf (fun hwf => ?_)
  obtain ⟨q, hq⟩ := hwf.2.2
  obtain ⟨hlt, -⟩ := List.get?_eq_some.mp hq
  omega

theorem decodeRapidWindArr_append {xs ys : List JValue} (h : xs.length = 3) :
    decodeRapidWindArr (xs ++ ys) = decodeRapidWindArr xs := by
  have e0 : floatAt (xs ++ ys) 0 = floatAt xs 0 := floatAt_append (by omega)
  have e1 : floatAt (xs ++ ys) 1 = floatAt xs 1 := floatAt_append (by omega)
  have e2 : floatAt (xs ++ ys) 2 = floatAt xs 2 := floatAt_append (by omega)
  simp only [decodeRapidWindArr, e0, e1, e2]

end Weatherflow

namespace Weatherflow

/-! Dispatch lemmas for `UnmarshalMessage`. -/

theorem UnmarshalMessage_missing {fields : List (String × JValue)}
    (h : ∀ t, lookupLast fields "type" ≠ some (.str t)) :
    UnmarshalMessage (.obj fields) = .err .missingType := by
  simp only [UnmarshalMessage]

theorem UnmarshalMessage_unsupported {fields : List (String × JValue)} {t : String}
    (hl : lookupLast fields "type" = some (.str t))
    (ht : t ∉ (["obs_st", "rapid_wind", "connection_opened", "ack"] : List String)) :
    UnmarshalMessage (.obj fields) = .err (.unsupportedType t) := by
  simp only [List.mem_cons, List.not_mem_nil, or_false, not_or] at ht
  obtain ⟨t1, t2, t3, t4⟩ := ht
  simp only [UnmarshalMessage, hl, if_neg t1, if_neg t2, if_neg t3, if_neg t4]

/-- A successful decode identifies the tag and ties it to the variant built. -/
theorem UnmarshalMessage_ok_variant {fields : List (String × JValue)} {m : Message}
    (h : UnmarshalMessage (.obj fields) = .ok m) :
    ∃ t, lookupLast fields "type" = some (.str t) ∧
      ((t = "obs_st" ∧ ∃ mm, m = .obsSt mm) ∨
       (t = "rapid_wind" ∧ ∃ mm, m = .rapidWind mm) ∨
       (t = "connection_opened" ∧ ∃ mm, m = .connectionOpened mm) ∨
       (t = "ack" ∧ ∃ mm, m = .ack mm)) := by
  cases hl : lookupLast fields "type" with
  | none =>
    rw [UnmarshalMessage_missing (fun t ht => by rw [hl] at ht; cases ht)] at h
    cases h
  | some v =>
    cases v with
    | str t =>
      simp only [UnmarshalMessage, hl] at h
      refine ⟨t, rfl, ?_⟩
      by_cases h1 : t = "obs_st"
      · rw [if_pos h1] at h
        rcases hd : decodeMessageObsStFields fields zeroMessageObsSt none with mm | e | s <;>
          rw [hd] at h <;> cases h
        exact Or.inl ⟨h1, mm, rfl⟩
      rw [if_neg h1] at h
      by_cases h2 : t = "rapid_wind"
      · rw [if_pos h2] at h
        rcases hd : decodeMessageRapidWindFields fields zeroMessageRapidWind none with mm | e | s <;>
          rw [hd] at h <;> cases h
        exact Or.inr (Or.inl ⟨h2, mm, rfl⟩)
      rw [if_neg h2] at h
      by_cases h3 : t = "connection_opened"
      · rw [if_pos h3] at h
        rcases hd : decodeMessageConnectionOpenedFields fields zeroMessageConnectionOpened none
          with mm | e | s <;> rw [hd] at h <;> cases h
        exact Or.inr (Or.inr (Or.inl ⟨h3, mm, rfl⟩))
      rw [if_neg h3] at h
      by_cases h4 : t = "ack"
      · rw [if_pos h4] at h
        rcases hd : decodeMessageAckFields fields zeroMessageAck none with mm | e | s <;>
          rw [hd] at h <;> cases h
        exact Or.inr (Or.inr (Or.inr ⟨h4, mm, rfl⟩))
      rw [if_neg h4] at h
      cases h
    | null =>
      rw [UnmarshalMessage_missing (fun t ht => by rw [hl] at ht; cases ht)] at h
      cases h
    | bool b =>
      rw [UnmarshalMessage_missing (fun t ht => by rw [hl] at ht; cases ht)] at h
      cases h
    | num q =>
      rw [UnmarshalMessage_missing (fun t ht => by rw [hl] at ht; cases ht)] at h
      cases h
    | arr es =>
      rw [UnmarshalMessage_missing (fun t ht => by rw [hl] at ht; cases ht)] at h
      cases h
    | obj fs =>
      rw [UnmarshalMessage_missing (fun t ht => by rw [hl] at ht; cases ht)] at h
      cases h

/-- A payload that is not a JSON object fails the first generic parse. -/
theorem UnmarshalMessage_nonobj_err {v : JValue}
    (h : ∀ fields, v ≠ .obj fields) : (UnmarshalMessage v).isErr = true := by
  cases v with
  | obj fs => exact absurd rfl (h fs)
  | null => rfl
  | bool b => rfl
  | num q => rfl
  | str s => rfl
  | arr es => rfl

end Weatherflow

namespace Weatherflow

theorem applyField_snd_some {σ α : Type} {acc : σ} {e : GoErr} {r : FieldRes α}
    {put : σ → α → σ} : (applyField acc (some e) r put).2 = some e := by
  cases r <;> rfl

theorem statusField_snd_some (acc : ObsStStatus) (e : GoErr) (k : String) (v : JValue) :
    (statusField acc (some e) k v).2 = some e := by
  simp only [statusField, apply_ite Prod.snd, applyField_snd_some, ite_self]

theorem summaryField_snd_some (acc : ObsStSummary) (e : GoErr) (k : String) (v : JValue) :
    (summaryField acc (some e) k v).2 = some e := by
  simp only [summaryField, apply_ite Prod.snd, applyField_snd_some, ite_self]

theorem decodeStatusFields_snd_some : ∀ (fs : List (String × JValue)) (acc : ObsStStatus)
    (e : GoErr), (decodeStatusFields fs acc (some e)).2 = some e
  | [], _, _ => rfl
  | (k, v) :: rest, acc, e => by
    simp only [decodeStatusFields]
    rcases h : statusField acc (some e) k v with ⟨acc2, saved2⟩
    have h2 : saved2 = some e := by
      have := statusField_snd_some acc e k v
      rw [h] at this
      exact this
    subst h2
    exact decodeStatusFields_snd_some rest acc2 e

theorem decodeSummaryFields_snd_some : ∀ (fs : List (String × JValue)) (acc : ObsStSummary)
    (e : GoErr), (decodeSummaryFields fs acc (some e)).2 = some e
  | [], _, _ => rfl
  | (k, v) :: rest, acc, e => by
    simp only [decodeSummaryFields]
    rcases h : summaryField acc (some e) k v with ⟨acc2, saved2⟩
    have h2 : saved2 = some e := by
      have := summaryField_snd_some acc e k v
      rw [h] at this
      exact this
    subst h2
    exact decodeSummaryFields_snd_some rest acc2 e

theorem decodeStatusValue_snd_some (acc : ObsStStatus) (e : GoErr) (v : JValue) :
    (decodeStatusValue acc (some e) v).2 = some e := by
  cases v <;> first | exact decodeStatusFields_snd_some _ _ _ | rfl

theorem decodeSummaryValue_snd_some (acc : ObsStSummary) (e : GoErr) (v : JValue) :
    (decodeSummaryValue acc (some e) v).2 = some e := by
  cases v <;> first | exact decodeSummaryFields_snd_some _ _ _ | rfl

end Weatherflow

namespace Weatherflow

/-- Once a built-in type error is saved, the fold can only end in `err`. -/
theorem decodeMessageObsStFields_some_ne_ok : ∀ (fields : List (String × JValue))
    (acc : MessageObsSt) (e : GoErr) (m : MessageObsSt),
    decodeMessageObsStFields fields acc (some e) ≠ .ok m
  | [], acc, e, m => by simp [decodeMessageObsStFields]
  | (k, v) :: rest, acc, e, m => by
    intro h
    simp only [decodeMessageObsStFields] at h
    by_cases h1 : k = "status"
    · rw [if_pos h1] at h
      rcases hd : decodeStatusValue acc.Status (some e) v with ⟨st, saved2⟩
      simp only [hd] at h
      have hs : saved2 = some e := by
        have := decodeStatusValue_snd_some acc.Status e v
        rw [hd] at this
        exact this
      subst hs
      exact decodeMessageObsStFields_some_ne_ok rest _ e m h
    rw [if_neg h1] at h
    by_cases h2 : k = "device_id"
    · rw [if_pos h2] at h
      rcases ha : applyField acc (some e) (goInt v)
          (fun a n => { a with DeviceID := n }) with ⟨acc2, saved2⟩
      simp only [ha] at h
      have hs : saved2 = some e := by
        have : (applyField acc (some e) (goInt v) (fun a n => { a with DeviceID := n })).2
            = some e := applyField_snd_some
        rw [ha] at this
        exact this
      subst hs
      exact decodeMessageObsStFields_some_ne_ok rest _ e m h
    rw [if_neg h2] at h
    by_cases h3 : k = "type"
    · rw [if_pos h3] at h
      rcases ha : applyField acc (some e) (goString v)
          (fun a s => { a with Typ := s }) with ⟨acc2, saved2⟩
      simp only [ha] at h
      have hs : saved2 = some e := by
        have : (applyField acc (some e) (goString v) (fun a s => { a with Typ := s })).2
            = some e := applyField_snd_some
        rw [ha] at this
        exact this
      subst hs
      exact decodeMessageObsStFields_some_ne_ok rest _ e m h
    rw [if_neg h3] at h
    by_cases h4 : k = "source"
    · rw [if_pos h4] at h
      rcases ha : applyField acc (some e) (goString v)
          (fun a s => { a with Source := s }) with ⟨acc2, saved2⟩
      simp only [ha] at h
      have hs : saved2 = some e := by
        have : (applyField acc (some e) (goString v) (fun a s => { a with Source := s })).2
            = some e := applyField_snd_some
        rw [ha] at this
        exact this
      subst hs
      exact decodeMessageObsStFields_some_ne_ok rest _ e m h
    rw [if_neg h4] at h
    by_cases h5 : k = "summary"
    · rw [if_pos h5] at h
      rcases hd : decodeSummaryValue acc.Summary (some e) v with ⟨sm, saved2⟩
      simp only [hd] at h
      have hs : saved2 = some e := by
        have := decodeSummaryValue_snd_some acc.Summary e v
        rw [hd] at this
        exact this
      subst hs
      exact decodeMessageObsStFields_some_ne_ok rest _ e m h
    rw [if_neg h5] at h
    by_cases h6 : k = "obs"
    · rw [if_pos h6] at h
      cases v with
      | arr vs =>
        rcases hd : decodeObsListAux vs [] with ds | e2 | s2 <;> simp only [hd] at h
        · exact decodeMessageObsStFields_some_ne_ok rest _ e m h
        · cases h
        · cases h
      | null => exact decodeMessageObsStFields_some_ne_ok rest _ e m h
      | bool b => exact decodeMessageObsStFields_some_ne_ok rest _ e m h
      | num q => exact decodeMessageObsStFields_some_ne_ok rest _ e m h
      | str s => exact decodeMessageObsStFields_some_ne_ok rest _ e m h
      | obj fs => exact decodeMessageObsStFields_some_ne_ok rest _ e m h
    rw [if_neg h6] at h
    exact decodeMessageObsStFields_some_ne_ok rest _ e m h

end Weatherflow

namespace Weatherflow

theorem lookupLast_cons_none {k key : String} {v : JValue} {rest : List (String × JValue)}
    (h : lookupLast ((k, v) :: rest) key = none) :
    lookupLast rest key = none ∧ k ≠ key := by
  simp only [lookupLast] at h
  rcases hr : lookupLast rest key with - | w
  · rw [hr] at h
    refine ⟨rfl, ?_⟩
    intro hk
    rw [if_pos hk] at h
    cases h
  · rw [hr] at h
    cases h

/-- Without a `device_id` key, the fold leaves `DeviceID` at its input value. -/
theorem decodeMessageObsStFields_DeviceID_pres : ∀ (fields : List (String × JValue))
    (acc : MessageObsSt) (saved : Option GoErr) (m : MessageObsSt),
    lookupLast fields "device_id" = none →
    decodeMessageObsStFields fields acc saved = .ok m →
    m.DeviceID = acc.DeviceID
  | [], acc, saved, m, _, h => by
    cases saved with
    | none => cases h; rfl
    | some e => exact absurd h (by simp [decodeMessageObsStFields])
  | (k, v) :: rest, acc, saved, m, hn, h => by
    obtain ⟨hrest, hk⟩ := lookupLast_cons_none hn
    simp only [decodeMessageObsStFields] at h
    by_cases h1 : k = "status"
    · rw [if_pos h1] at h
      rcases hd : decodeStatusValue acc.Status saved v with ⟨st, saved2⟩
      simp only [hd] at h
      exact decodeMessageObsStFields_DeviceID_pres rest { acc with Status := st } saved2 m hrest h
    rw [if_neg h1] at h
    rw [if_neg hk] at h
    by_cases h3 : k = "type"
    · rw [if_pos h3] at h
      rcases ha : applyField acc saved (goString v)
          (fun a s => { a with Typ := s }) with ⟨acc2, saved2⟩
      simp only [ha] at h
      have hacc : acc2.DeviceID = acc.DeviceID := by
        cases hg : goString v <;> rw [hg] at ha <;>
          simp only [applyField, Prod.mk.injEq] at ha <;> rw [← ha.1]
      rw [decodeMessageObsStFields_DeviceID_pres rest acc2 saved2 m hrest h]
      exact hacc
    rw [if_neg h3] at h
    by_cases h4 : k = "source"
    · rw [if_pos h4] at h
      rcases ha : applyField acc saved (goString v)
          (fun a s => { a with Source := s }) with ⟨acc2, saved2⟩
      simp only [ha] at h
      have hacc : acc2.DeviceID = acc.DeviceID := by
        cases hg : goString v <;> rw [hg] at ha <;>
          simp only [applyField, Prod.mk.injEq] at ha <;> rw [← ha.1]
      rw [decodeMessageObsStFields_DeviceID_pres rest acc2 saved2 m hrest h]
      exact hacc
    rw [if_neg h4] at h
    by_cases h5 : k = "summary"
    · rw [if_pos h5] at h
      rcases hd : decodeSummaryValue acc.Summary saved v with ⟨sm, saved2⟩
      simp only [hd] at h
      exact decodeMessageObsStFields_DeviceID_pres rest { acc with Summary := sm } saved2 m hrest h
    rw [if_neg h5] at h
    by_cases h6 : k = "obs"
    · rw [if_pos h6] at h
      cases v with
      | arr vs =>
        rcases hd : decodeObsListAux vs [] with ds | e2 | s2 <;> simp only [hd] at h
        · exact decodeMessageObsStFields_DeviceID_pres rest { acc with Obs := ds } saved m hrest h
        · cases h
        · cases h
      | null => exact decodeMessageObsStFields_DeviceID_pres rest { acc with Obs := [] } saved m hrest h
      | bool b => exact decodeMessageObsStFields_DeviceID_pres rest acc _ m hrest h
      | num q => exact decodeMessageObsStFields_DeviceID_pres rest acc _ m hrest h
      | str s2 => exact decodeMessageObsStFields_DeviceID_pres rest acc _ m hrest h
      | obj fs => exact decodeMessageObsStFields_DeviceID_pres rest acc _ m hrest h
    rw [if_neg h6] at h
    exact decodeMessageObsStFields_DeviceID_pres rest acc saved m hrest h

end Weatherflow

namespace Weatherflow

/-- A successful `obs_st` struct decode takes `DeviceID` from the last
`device_id` key of the payload when that key holds a number. -/
theorem decodeMessageObsStFields_DeviceID : ∀ (fields : List (String × JValue))
    (acc : MessageObsSt) (saved : Option GoErr) (m : MessageObsSt) (q : ℚ),
    decodeMessageObsStFields fields acc saved = .ok m →
    lookupLast fields "device_id" = some (.num q) →
    m.DeviceID = q.num
  | [], _, _, _, _, _, hl => by cases hl
  | (k, v) :: rest, acc, saved, m, q, h, hl => by
    simp only [lookupLast] at hl
    rcases hr : lookupLast rest "device_id" with - | w
    · rw [hr] at hl
      by_cases hk : k = "device_id"
      · rw [if_pos hk] at hl
        cases hl
        subst hk
        simp only [decodeMessageObsStFields, reduceIte] at h
        by_cases hq : q.den = 1
        · simp only [goInt, if_pos hq, applyField] at h
          rw [decodeMessageObsStFields_DeviceID_pres rest
            { acc with DeviceID := q.num } saved m hr h]
        · simp only [goInt, if_neg hq, applyField] at h
          cases saved with
          | none => exact absurd h (decodeMessageObsStFields_some_ne_ok rest acc _ m)
          | some e0 => exact absurd h (decodeMessageObsStFields_some_ne_ok rest acc _ m)
      · rw [if_neg hk] at hl
        cases hl
    · rw [hr] at hl
      cases hl
      simp only [decodeMessageObsStFields] at h
      by_cases h1 : k = "status"
      · rw [if_pos h1] at h
        rcases hd : decodeStatusValue acc.Status saved v with ⟨st, saved2⟩
        simp only [hd] at h
        exact decodeMessageObsStFields_DeviceID rest _ saved2 m q h hr
      rw [if_neg h1] at h
      by_cases h2 : k = "device_id"
      · rw [if_pos h2] at h
        rcases ha : applyField acc saved (goInt v)
            (fun a n => { a with DeviceID := n }) with ⟨acc2, saved2⟩
        simp only [ha] at h
        exact decodeMessageObsStFields_DeviceID rest acc2 saved2 m q h hr
      rw [if_neg h2] at h
      by_cases h3 : k = "type"
      · rw [if_pos h3] at h
        rcases ha : applyField acc saved (goString v)
            (fun a s => { a with Typ := s }) with ⟨acc2, saved2⟩
        simp only [ha] at h
        exact decodeMessageObsStFields_DeviceID rest acc2 saved2 m q h hr
      rw [if_neg h3] at h
      by_cases h4 : k = "source"
      · rw [if_pos h4] at h
        rcases ha : applyField acc saved (goString v)
            (fun a s => { a with Source := s }) with ⟨acc2, saved2⟩
        simp only [ha] at h
        exact decodeMessageObsStFields_DeviceID rest acc2 saved2 m q h hr
      rw [if_neg h4] at h
      by_cases h5 : k = "summary"
      · rw [if_pos h5] at h
        rcases hd : decodeSummaryValue acc.Summary saved v with ⟨sm, saved2⟩
        simp only [hd] at h
        exact decodeMessageObsStFields_DeviceID rest _ saved2 m q h hr
      rw [if_neg h5] at h
      by_cases h6 : k = "obs"
      · rw [if_pos h6] at h
        cases v with
        | arr vs =>
          rcases hd : decodeObsListAux vs [] with ds | e2 | s2 <;> simp only [hd] at h
          · exact decodeMessageObsStFields_DeviceID rest _ saved m q h hr
          · cases h
          · cases h
        | null => exact decodeMessageObsStFields_DeviceID rest _ saved m q h hr
        | bool b => exact decodeMessageObsStFields_DeviceID rest acc _ m q h hr
        | num q2 => exact decodeMessageObsStFields_DeviceID rest acc _ m q h hr
        | str s2 => exact decodeMessageObsStFields_DeviceID rest acc _ m q h hr
        | obj fs => exact decodeMessageObsStFields_DeviceID rest acc _ m q h hr
      rw [if_neg h6] at h
      exact decodeMessageObsStFields_DeviceID rest acc saved m q h hr

end Weatherflow

namespace Weatherflow

theorem decodeMessageRapidWindFields_some_ne_ok : ∀ (fields : List (String × JValue))
    (acc : MessageRapidWind) (e : GoErr) (m : MessageRapidWind),
    decodeMessageRapidWindFields fields acc (some e) ≠ .ok m
  | [], acc, e, m => by simp [decodeMessageRapidWindFields]
  | (k, v) :: rest, acc, e, m => by
    intro h
    simp only [decodeMessageRapidWindFields] at h
    by_cases h1 : k = "device_id"
    · rw [if_pos h1] at h
      rcases ha : applyField acc (some e) (goInt v)
          (fun a n => { a with DeviceID := n }) with ⟨acc2, saved2⟩
      simp only [ha] at h
      have hs : saved2 = some e := by
        have : (applyField acc (some e) (goInt v) (fun a n => { a with DeviceID := n })).2
            = some e := applyField_snd_some
        rw [ha] at this
        exact this
      subst hs
      exact decodeMessageRapidWindFields_some_ne_ok rest _ e m h
    rw [if_neg h1] at h
    by_cases h2 : k = "serial_number"
    · rw [if_pos h2] at h
      rcases ha : applyField acc (some e) (goString v)
          (fun a s => { a with SerialNumber := s }) with ⟨acc2, saved2⟩
      simp only [ha] at h
      have hs : saved2 = some e := by
        have : (applyField acc (some e) (goString v)
            (fun a s => { a with SerialNumber := s })).2 = some e := applyField_snd_some
        rw [ha] at this
        exact this
      subst hs
      exact decodeMessageRapidWindFields_some_ne_ok rest _ e m h
    rw [if_neg h2] at h
    by_cases h3 : k = "type"
    · rw [if_pos h3] at h
      rcases ha : applyField acc (some e) (goString v)
          (fun a s => { a with Typ := s }) with ⟨acc2, saved2⟩
      simp only [ha] at h
      have hs : saved2 = some e := by
        have : (applyField acc (some e) (goString v) (fun a s => { a with Typ := s })).2
            = some e := applyField_snd_some
        rw [ha] at this
        exact this
      subst hs
      exact decodeMessageRapidWindFields_some_ne_ok rest _ e m h
    rw [if_neg h3] at h
    by_cases h4 : k = "hub_sn"
    · rw [if_pos h4] at h
      rcases ha : applyField acc (some e) (goString v)
          (fun a s => { a with HubSN := s }) with ⟨acc2, saved2⟩
      simp only [ha] at h
      have hs : saved2 = some e := by
        have : (applyField acc (some e) (goString v) (fun a s => { a with HubSN := s })).2
            = some e := applyField_snd_some
        rw [ha] at this
        exact this
      subst hs
      exact decodeMessageRapidWindFields_some_ne_ok rest _ e m h
    rw [if_neg h4] at h
    by_cases h5 : k = "ob"
    · rw [if_pos h5] at h
      rcases hd : RapidWindData.UnmarshalJSON v with d | e2 | s2 <;> simp only [hd] at h
      · exact decodeMessageRapidWindFields_some_ne_ok rest _ e m h
      · cases h
      · cases h
    rw [if_neg h5] at h
    exact decodeMessageRapidWindFields_some_ne_ok rest _ e m h

theorem decodeMessageRapidWindFields_DeviceID_pres : ∀ (fields : List (String × JValue))
    (acc : MessageRapidWind) (saved : Option GoErr) (m : MessageRapidWind),
    lookupLast fields "device_id" = none →
    decodeMessageRapidWindFields fields acc saved = .ok m →
    m.DeviceID = acc.DeviceID
  | [], acc, saved, m, _, h => by
    cases saved with
    | none => cases h; rfl
    | some e => exact absurd h (by simp [decodeMessageRapidWindFields])
  | (k, v) :: rest, acc, saved, m, hn, h => by
    obtain ⟨hrest, hk⟩ := lookupLast_cons_none hn
    simp only [decodeMessageRapidWindFields] at h
    rw [if_neg hk] at h
    by_cases h2 : k = "serial_number"
    · rw [if_pos h2] at h
      rcases ha : applyField acc saved (goString v)
          (fun a s => { a with SerialNumber := s }) with ⟨acc2, saved2⟩
      simp only [ha] at h
      have hacc : acc2.DeviceID = acc.DeviceID := by
        cases hg : goString v <;> rw [hg] at ha <;>
          simp only [applyField, Prod.mk.injEq] at ha <;> rw [← ha.1]
      rw [decodeMessageRapidWindFields_DeviceID_pres rest acc2 saved2 m hrest h]
      exact hacc
    rw [if_neg h2] at h
    by_cases h3 : k = "type"
    · rw [if_pos h3] at h
      rcases ha : applyField acc saved (goString v)
          (fun a s => { a with Typ := s }) with ⟨acc2, saved2⟩
      simp only [ha] at h
      have hacc : acc2.DeviceID = acc.DeviceID := by
        cases hg : goString v <;> rw [hg] at ha <;>
          simp only [applyField, Prod.mk.injEq] at ha <;> rw [← ha.1]
      rw [decodeMessageRapidWindFields_DeviceID_pres rest acc2 saved2 m hrest h]
      exact hacc
    rw [if_neg h3] at h
    by_cases h4 : k = "hub_sn"
    · rw [if_pos h4] at h
      rcases ha : applyField acc saved (goString v)
          (fun a s => { a with HubSN := s }) with ⟨acc2, saved2⟩
      simp only [ha] at h
      have hacc : acc2.DeviceID = acc.DeviceID := by
        cases hg : goString v <;> rw [hg] at ha <;>
          simp only [applyField, Prod.mk.injEq] at ha <;> rw [← ha.1]
      rw [decodeMessageRapidWindFields_DeviceID_pres rest acc2 saved2 m hrest h]
      exact hacc
    rw [if_neg h4] at h
    by_cases h5 : k = "ob"
    · rw [if_pos h5] at h
      rcases hd : RapidWindData.UnmarshalJSON v with d | e2 | s2 <;> simp only [hd] at h
      · exact decodeMessageRapidWindFields_DeviceID_pres rest { acc with Ob := d } saved m hrest h
      · cases h
      · cases h
    rw [if_neg h5] at h
    exact decodeMessageRapidWindFields_DeviceID_pres rest acc saved m hrest h

/-- A successful `rapid_wind` struct decode takes `DeviceID` from the last
`device_id` key of the payload when that key holds a number. -/
theorem decodeMessageRapidWindFields_DeviceID : ∀ (fields : List (String × JValue))
    (acc : MessageRapidWind) (saved : Option GoErr) (m : MessageRapidWind) (q : ℚ),
    decodeMessageRapidWindFields fields acc saved = .ok m →
    lookupLast fields "device_id" = some (.num q) →
    m.DeviceID = q.num
  | [], _, _, _, _, _, hl => by cases hl
  | (k, v) :: rest, acc, saved, m, q, h, hl => by
    simp only [lookupLast] at hl
    rcases hr : lookupLast rest "device_id" with - | w
    · rw [hr] at hl
      by_cases hk : k = "device_id"
      · rw [if_pos hk] at hl
        cases hl
        subst hk
        simp only [decodeMessageRapidWindFields, reduceIte] at h
        by_cases hq : q.den = 1
        · simp only [goInt, if_pos hq, applyField] at h
          rw [decodeMessageRapidWindFields_DeviceID_pres rest
            { acc with DeviceID := q.num } saved m hr h]
        · simp only [goInt, if_neg hq, applyField] at h
          cases saved with
          | none => exact absurd h (decodeMessageRapidWindFields_some_ne_ok rest acc _ m)
          | some e0 => exact absurd h (decodeMessageRapidWindFields_some_ne_ok rest acc _ m)
      · rw [if_neg hk] at hl
        cases hl
    · rw [hr] at hl
      cases hl
      simp only [decodeMessageRapidWindFields] at h
      by_cases h1 : k = "device_id"
      · rw [if_pos h1] at h
        rcases ha : applyField acc saved (goInt v)
            (fun a n => { a with DeviceID := n }) with ⟨acc2, saved2⟩
        simp only [ha] at h
        exact decodeMessageRapidWindFields_DeviceID rest acc2 saved2 m q h hr
      rw [if_neg h1] at h
      by_cases h2 : k = "serial_number"
      · rw [if_pos h2] at h
        rcases ha : applyField acc saved (goString v)
            (fun a s => { a with SerialNumber := s }) with ⟨acc2, saved2⟩
        simp only [ha] at h
        exact decodeMessageRapidWindFields_DeviceID rest acc2 saved2 m q h hr
      rw [if_neg h2] at h
      by_cases h3 : k = "type"
      · rw [if_pos h3] at h
        rcases ha : applyField acc saved (goString v)
            (fun a s => { a with Typ := s }) with ⟨acc2, saved2⟩
        simp only [ha] at h
        exact decodeMessageRapidWindFields_DeviceID rest acc2 saved2 m q h hr
      rw [if_neg h3] at h
      by_cases h4 : k = "hub_sn"
      · rw [if_pos h4] at h
        rcases ha : applyField acc saved (goString v)
            (fun a s => { a with HubSN := s }) with ⟨acc2, saved2⟩
        simp only [ha] at h
        exact decodeMessageRapidWindFields_DeviceID rest acc2 saved2 m q h hr
      rw [if_neg h4] at h
      by_cases h5 : k = "ob"
      · rw [if_pos h5] at h
        rcases hd : RapidWindData.UnmarshalJSON v with d | e2 | s2 <;> simp only [hd] at h
        · exact decodeMessageRapidWindFields_DeviceID rest _ saved m q h hr
        · cases h
        · cases h
      rw [if_neg h5] at h
      exact decodeMessageRapidWindFields_DeviceID rest acc saved m q h hr

end Weatherflow

namespace Weatherflow

/-! ### Claim theorems -/

/-- Claim C1 counterexample: an `obs_st` payload whose obs tuple has 3 elements
and a `rapid_wind` payload whose ob tuple has 1 element make `UnmarshalMessage`
panic (Go runtime index error) rather than return a `DecodeError`; a full-length
tuple with a string at numeric position 2 panics as well (failed type
assertion) instead of producing an error. -/
theorem C1_counterexample :
    (UnmarshalMessage obsStShortPayload).isPanic = true ∧
    (UnmarshalMessage obsStShortPayload).isErr = false ∧
    (UnmarshalMessage rapidWindShortPayload).isPanic = true ∧
    (UnmarshalMessage rapidWindShortPayload).isErr = false ∧
    (UnmarshalMessage obsStBadElemPayload).isPanic = true ∧
    (UnmarshalMessage obsStBadElemPayload).isErr = false :=
  ⟨rfl, rfl, rfl, rfl, rfl, rfl⟩

/-- Claim C1 (amended): a too-short obs tuple (fewer than 22 elements) or ob
tuple (fewer than 3) makes the unmarshaler panic instead of returning a
DecodeError; a longer tuple is silently truncated (the decoding ignores the
extra elements); a non-numeric non-null value at any of the 22 numeric
positions also panics. -/
theorem C1_shape_mismatch_panics :
    (∀ xs : List JValue, xs.length < 22 →
      (ObsStData.UnmarshalJSON (.arr xs)).isPanic = true) ∧
    (∀ xs : List JValue, xs.length < 3 →
      (RapidWindData.UnmarshalJSON (.arr xs)).isPanic = true) ∧
    (∀ xs ys : List JValue, xs.length = 22 →
      ObsStData.UnmarshalJSON (.arr (xs ++ ys)) = ObsStData.UnmarshalJSON (.arr xs)) ∧
    (∀ xs ys : List JValue, xs.length = 3 →
      RapidWindData.UnmarshalJSON (.arr (xs ++ ys)) = RapidWindData.UnmarshalJSON (.arr xs)) ∧
    (∀ (xs : List JValue) (i : ℕ) (v : JValue), i < 22 → xs.get? i = some v →
      (∀ q, v ≠ JValue.num q) → v ≠ JValue.null →
      (ObsStData.UnmarshalJSON (.arr xs)).isPanic = true) := by
  refine ⟨?_, ?_, ?_, ?_, ?_⟩
  · exact fun xs h => decodeObsStArr_panic_of_short h
  · exact fun xs h => decodeRapidWindArr_panic_of_short h
  · exact fun xs ys h => decodeObsStArr_append h
  · exact fun xs ys h => decodeRapidWindArr_append h
  · exact fun xs i v hi hv hnum hnull => decodeObsStArr_panic_of_bad hi hv hnum hnull

theorem C1_shape_mismatch_panics_witness :
    ([JValue.num 1].length < 22) ∧
    (ObsStData.UnmarshalJSON (.arr [JValue.num 1])).isPanic = true :=
  ⟨by decide, C1_shape_mismatch_panics.1 [JValue.num 1] (by decide)⟩

/-- Claim C2 counterexample: on a binary frame the manager increments the error
counter but continues the read loop on the same connection — it does not exit
the loop or reconnect. -/
theorem C2_counterexample :
    (readStep ⟨∅, 0, false⟩ (.frame .binary .null)).ctl = .cont ∧
    (readStep ⟨∅, 0, false⟩ (.frame .binary .null)).ctl ≠ .brk ∧
    (readStep ⟨∅, 0, false⟩ (.frame .binary .null)).state.errors = 1 :=
  ⟨rfl, by decide, rfl⟩

/-- Claim C2 (amended): a non-text frame increments the error counter and the
read loop continues reading the same connection — the frame is skipped,
nothing is dispatched or sent, and no reconnect is triggered. -/
theorem C2_nontext_frame :
    ∀ (s : ClientState) (p : JValue),
      readStep s (.frame .binary p) =
        ⟨{ s with errors := s.errors + 1 }, [], ∅, .cont⟩ :=
  fun _ _ => rfl

/-- Claim C3 counterexample: an `ack` message — which is not forwarded to the
handler — still resets the error counter from 7 to 1. -/
theorem C3_counterexample :
    (readStep ⟨∅, 7, false⟩ (.frame .text ackPayload)).dispatched = [] ∧
    (readStep ⟨∅, 7, false⟩ (.frame .text ackPayload)).state.errors = 1 ∧
    (7 : ℕ) ≠ 1 :=
  ⟨rfl, rfl, by decide⟩

/-- Claim C3 (amended): the error counter is reset to exactly 1 on every
successfully decoded message — forwarded observations, but also `ack` and
`connection_opened`, which are not forwarded; a decode failure or a non-text
frame instead increments the counter. -/
theorem C3_reset_on_any_decoded :
    (∀ (s : ClientState) (p : JValue) (m : Message),
      UnmarshalMessage p = .ok m →
      (readStep s (.frame .text p)).state.errors = 1) ∧
    (∀ (s : ClientState) (p : JValue) (e : GoErr),
      UnmarshalMessage p = .err e →
      (readStep s (.frame .text p)).state.errors = s.errors + 1) ∧
    (∀ (s : ClientState) (p : JValue),
      (readStep s (.frame .binary p)).state.errors = s.errors + 1) := by
  refine ⟨?_, ?_, ?_⟩
  · intro s p m h
    simp only [readStep, h]
    cases m <;> rfl
  · intro s p e h
    simp only [readStep, h]
  · intro s p
    rfl

theorem C3_reset_on_any_decoded_witness :
    UnmarshalMessage ackPayload = .ok (.ack ⟨"x", "ack"⟩) ∧
    (readStep ⟨∅, 7, false⟩ (.frame .text ackPayload)).state.errors = 1 :=
  ⟨rfl, C3_reset_on_any_decoded.1 ⟨∅, 7, false⟩ ackPayload (.ack ⟨"x", "ack"⟩) rfl⟩

/-- Claim C4: the backoff delay is `min(initialBackoff^n, maxBackoff)` seconds
for every positive error count `n`, zero exactly when `n = 0`, non-decreasing
in `n`, and capped at `maxBackoff`. -/
theorem C4_backoff :
    (∀ n : ℕ, n ≠ 0 → handleBackoff n = min (initialBackoff ^ n) maxBackoff) ∧
    (∀ n : ℕ, handleBackoff n = 0 ↔ n = 0) ∧
    (∀ n : ℕ, 1 ≤ n → handleBackoff n ≤ handleBackoff (n + 1)) ∧
    (∀ n : ℕ, handleBackoff n ≤ maxBackoff) := by
  refine ⟨?_, ?_, ?_, ?_⟩
  · intro n hn
    simp [handleBackoff, hn]
  · intro n
    constructor
    · intro h
      by_contra hn
      rw [handleBackoff, if_neg hn] at h
      have h1 : 0 < min (initialBackoff ^ n) maxBackoff :=
        lt_min (Nat.pos_pow_of_pos n (by norm_num [initialBackoff]))
          (by norm_num [maxBackoff])
      omega
    · intro h
      simp [handleBackoff, h]
  · intro n hn
    have hne : n ≠ 0 := by omega
    have hne2 : n + 1 ≠ 0 := by omega
    rw [handleBackoff, if_neg hne, handleBackoff, if_neg hne2]
    exact min_le_min (Nat.pow_le_pow_right (by norm_num [initialBackoff]) (by omega)) le_rfl
  · intro n
    by_cases hn : n = 0
    · simp [handleBackoff, hn, maxBackoff]
    · rw [handleBackoff, if_neg hn]
      exact min_le_right _ _

theorem C4_backoff_witness :
    (3 : ℕ) ≠ 0 ∧ handleBackoff 3 = min (initialBackoff ^ 3) maxBackoff ∧
    (1 : ℕ) ≤ 1 ∧ handleBackoff 1 ≤ handleBackoff 2 :=
  ⟨by decide, C4_backoff.1 3 (by decide), by decide, C4_backoff.2.2.1 1 (by decide)⟩

end Weatherflow

namespace Weatherflow

/-- Claim C5: in the read loop, subscription frames are emitted only upon a
decoded `connection_opened` message; at that point the frames sent are exactly,
for every device in the registry, the two directives (standard listen-start and
rapid listen-start), which are distinct, independently written frames. -/
theorem C5_subscribe_on_ready :
    (∀ (s : ClientState) (r : ReadResult), (readStep s r).sent ≠ ∅ →
      ∃ (p : JValue) (mm : MessageConnectionOpened),
        r = .frame .text p ∧ UnmarshalMessage p = .ok (.connectionOpened mm)) ∧
    (∀ (s : ClientState) (p : JValue) (mm : MessageConnectionOpened),
      UnmarshalMessage p = .ok (.connectionOpened mm) →
      (readStep s (.frame .text p)).sent = subscriptionFrames s.deviceIDs ∧
      (readStep s (.frame .text p)).state.ready = true) ∧
    (∀ (ids : Finset ℤ) (f : Outbound), f ∈ subscriptionFrames ids ↔
      ∃ id ∈ ids, f = startMessage id ∨ f = rapidStartMessage id) ∧
    (∀ id : ℤ, sendListenStart id = [startMessage id, rapidStartMessage id] ∧
      startMessage id ≠ rapidStartMessage id) := by
  refine ⟨?_, ?_, ?_, ?_⟩
  · intro s r h
    cases r with
    | tick => exact absurd rfl h
    | readErrCanceled => exact absurd rfl h
    | readErr => exact absurd rfl h
    | frame kind p =>
      cases kind with
      | binary => exact absurd rfl h
      | text =>
        rcases hm : UnmarshalMessage p with m | e | s2
        · cases m with
          | obsSt mm => refine absurd ?_ h; simp [readStep, hm]
          | rapidWind mm => refine absurd ?_ h; simp [readStep, hm]
          | ack mm => refine absurd ?_ h; simp [readStep, hm]
          | connectionOpened mm => exact ⟨p, mm, rfl, hm⟩
        · refine absurd ?_ h; simp [readStep, hm]
        · refine absurd ?_ h; simp [readStep, hm]
  · intro s p mm h
    constructor
    · simp [readStep, h]
    · simp [readStep, h]
  · intro ids f
    simp only [subscriptionFrames, Finset.mem_biUnion, Finset.mem_insert,
      Finset.mem_singleton]
  · intro id
    refine ⟨rfl, ?_⟩
    simp [startMessage, rapidStartMessage]

theorem C5_subscribe_on_ready_witness :
    UnmarshalMessage connectionOpenedPayload = .ok (.connectionOpened ⟨"connection_opened"⟩) ∧
    (readStep ⟨{5}, 0, false⟩ (.frame .text connectionOpenedPayload)).sent
      = subscriptionFrames {5} :=
  ⟨rfl, (C5_subscribe_on_ready.2.1 ⟨{5}, 0, false⟩ connectionOpenedPayload
    ⟨"connection_opened"⟩ rfl).1⟩

/-- Claim C6: in a successfully decoded obs tuple, JSON null at positions 6, 7,
8 yields the explicit absent value (`none`) for station pressure, air
temperature and relative humidity, while a number (in particular 0) yields a
present value (`some`), and the two decodings are distinct. -/
theorem C6_nullable_positions :
    ∀ (xs : List JValue) (obs : ObsStData),
      ObsStData.UnmarshalJSON (.arr xs) = .ok obs →
      ((xs.get? 6 = some .null → obs.StationPressure = none) ∧
       (∀ q, xs.get? 6 = some (.num q) → obs.StationPressure = some q)) ∧
      ((xs.get? 7 = some .null → obs.AirTemperature = none) ∧
       (∀ q, xs.get? 7 = some (.num q) → obs.AirTemperature = some q)) ∧
      ((xs.get? 8 = some .null → obs.RelativeHumidity = none) ∧
       (∀ q, xs.get? 8 = some (.num q) → obs.RelativeHumidity = some q)) ∧
      ∀ q : ℚ, (some q : Option ℚ) ≠ none := by
  intro xs obs h
  obtain ⟨-, h6, h7, h8⟩ := decodeObsStArr_ok_elim h
  refine ⟨⟨?_, ?_⟩, ⟨?_, ?_⟩, ⟨?_, ?_⟩, by simp⟩
  · intro hn
    rcases h6 with ⟨-, ho⟩ | ⟨q, hq, -⟩
    · exact ho
    · rw [hn] at hq
      cases hq
  · intro q hq6
    rcases h6 with ⟨hn, -⟩ | ⟨q2, hq2, ho⟩
    · rw [hq6] at hn
      cases hn
    · rw [hq6] at hq2
      injection hq2 with hv
      injection hv with hq
      rw [ho, hq]
  · intro hn
    rcases h7 with ⟨-, ho⟩ | ⟨q, hq, -⟩
    · exact ho
    · rw [hn] at hq
      cases hq
  · intro q hq7
    rcases h7 with ⟨hn, -⟩ | ⟨q2, hq2, ho⟩
    · rw [hq7] at hn
      cases hn
    · rw [hq7] at hq2
      injection hq2 with hv
      injection hv with hq
      rw [ho, hq]
  · intro hn
    rcases h8 with ⟨-, ho⟩ | ⟨q, hq, -⟩
    · exact ho
    · rw [hn] at hq
      cases hq
  · intro q hq8
    rcases h8 with ⟨hn, -⟩ | ⟨q2, hq2, ho⟩
    · rw [hq8] at hn
      cases hn
    · rw [hq8] at hq2
      injection hq2 with hv
      injection hv with hq
      rw [ho, hq]

theorem C6_nullable_positions_witness :
    ObsStData.UnmarshalJSON (.arr obsNullTuple) = .ok obsNullDecoded ∧
    obsNullTuple.get? 6 = some .null ∧
    obsNullDecoded.StationPressure = none :=
  ⟨rfl, rfl, ((C6_nullable_positions obsNullTuple obsNullDecoded rfl).1).1 rfl⟩

/-- Claim C7 counterexample: starting from a registry already containing 5,
AddDevice 5 followed by RemoveDevice 5 drops the count from 1 to 0 — it does
not restore the prior value. -/
theorem C7_counterexample :
    DeviceCount (RemoveDevice (AddDevice {(5 : ℤ)} 5) 5) = 0 ∧
    DeviceCount {(5 : ℤ)} = 1 := by
  constructor <;> simp [AddDevice, RemoveDevice, DeviceCount]

/-- Claim C7 (amended): AddDevice then RemoveDevice of the same id restores the
count when the id was not already present; when it was present the pair removes
it and the count drops by exactly one.  AddDevice of a present id and
RemoveDevice of an absent id leave the count unchanged. -/
theorem C7_registry :
    (∀ (s : Finset ℤ) (id : ℤ), id ∉ s →
      DeviceCount (RemoveDevice (AddDevice s id) id) = DeviceCount s) ∧
    (∀ (s : Finset ℤ) (id : ℤ), id ∈ s →
      DeviceCount (RemoveDevice (AddDevice s id) id) + 1 = DeviceCount s) ∧
    (∀ (s : Finset ℤ) (id : ℤ), id ∈ s →
      DeviceCount (AddDevice s id) = DeviceCount s) ∧
    (∀ (s : Finset ℤ) (id : ℤ), id ∉ s →
      DeviceCount (RemoveDevice s id) = DeviceCount s) := by
  refine ⟨?_, ?_, ?_, ?_⟩
  · intro s id h
    simp [AddDevice, RemoveDevice, DeviceCount, Finset.erase_insert h]
  · intro s id h
    rw [AddDevice, RemoveDevice, DeviceCount, Finset.insert_eq_self.mpr h]
    exact Finset.card_erase_add_one h
  · intro s id h
    rw [AddDevice, DeviceCount, Finset.insert_eq_self.mpr h]
    rfl
  · intro s id h
    rw [RemoveDevice, DeviceCount, Finset.erase_eq_self.mpr h]
    rfl

theorem C7_registry_witness :
    (5 : ℤ) ∉ (∅ : Finset ℤ) ∧
    DeviceCount (RemoveDevice (AddDevice ∅ 5) 5) = DeviceCount ∅ :=
  ⟨by decide, C7_registry.1 ∅ 5 (by decide)⟩

end Weatherflow

namespace Weatherflow

/-- Claim C8: decoding an object payload fails with the missing-type error when
the `type` key is absent or not a string; fails with the unsupported-type error
carrying the offending tag when the tag is unknown; and succeeds only for the
four known tags, producing exactly the variant matching the tag. -/
theorem C8_dispatch :
    (∀ fields : List (String × JValue),
      (∀ t, lookupLast fields "type" ≠ some (.str t)) →
      UnmarshalMessage (.obj fields) = .err .missingType) ∧
    (∀ (fields : List (String × JValue)) (t : String),
      lookupLast fields "type" = some (.str t) →
      t ∉ (["obs_st", "rapid_wind", "connection_opened", "ack"] : List String) →
      UnmarshalMessage (.obj fields) = .err (.unsupportedType t)) ∧
    (∀ (fields : List (String × JValue)) (m : Message),
      UnmarshalMessage (.obj fields) = .ok m →
      ∃ t, lookupLast fields "type" = some (.str t) ∧
        t ∈ (["obs_st", "rapid_wind", "connection_opened", "ack"] : List String) ∧
        ((t = "obs_st" ∧ ∃ mm, m = .obsSt mm) ∨
         (t = "rapid_wind" ∧ ∃ mm, m = .rapidWind mm) ∨
         (t = "connection_opened" ∧ ∃ mm, m = .connectionOpened mm) ∨
         (t = "ack" ∧ ∃ mm, m = .ack mm))) := by
  refine ⟨?_, ?_, ?_⟩
  · exact fun fields h => UnmarshalMessage_missing h
  · exact fun fields t hl ht => UnmarshalMessage_unsupported hl ht
  · intro fields m h
    obtain ⟨t, hl, hv⟩ := UnmarshalMessage_ok_variant h
    refine ⟨t, hl, ?_, hv⟩
    rcases hv with ⟨ht, -⟩ | ⟨ht, -⟩ | ⟨ht, -⟩ | ⟨ht, -⟩ <;> simp [ht]

theorem C8_dispatch_witness :
    (∀ t, lookupLast [("type", JValue.num 3)] "type" ≠ some (.str t)) ∧
    UnmarshalMessage (.obj [("type", JValue.num 3)]) = .err .missingType ∧
    UnmarshalMessage (.obj [("type", JValue.str "weird")]) = .err (.unsupportedType "weird") := by
  have h1 : ∀ t, lookupLast [("type", JValue.num 3)] "type" ≠ some (JValue.str t) := by
    intro t h
    simp [lookupLast] at h
  exact ⟨h1, C8_dispatch.1 _ h1, C8_dispatch.2.1 _ "weird" rfl (by simp)⟩

/-- Claim C9: a message handed to the application handler by the read loop is
always an observation variant (`obs_st` or `rapid_wind`); in particular an
`Acknowledgement` is never dispatched. -/
theorem C9_dispatch_only_observations :
    ∀ (s : ClientState) (r : ReadResult) (m : Message),
      m ∈ (readStep s r).dispatched →
      (∃ mm, m = Message.obsSt mm) ∨ (∃ mm, m = Message.rapidWind mm) := by
  intro s r m hm
  cases r with
  | tick => simp [readStep] at hm
  | readErrCanceled => simp [readStep] at hm
  | readErr => simp [readStep] at hm
  | frame kind p =>
    cases kind with
    | binary => simp [readStep] at hm
    | text =>
      rcases hr : UnmarshalMessage p with m2 | e | s2
      · cases m2 with
        | obsSt mm =>
          simp only [readStep, hr, List.mem_singleton] at hm
          exact Or.inl ⟨mm, hm⟩
        | rapidWind mm =>
          simp only [readStep, hr, List.mem_singleton] at hm
          exact Or.inr ⟨mm, hm⟩
        | connectionOpened mm => simp [readStep, hr] at hm
        | ack mm => simp [readStep, hr] at hm
      · simp [readStep, hr] at hm
      · simp [readStep, hr] at hm

theorem C9_dispatch_only_observations_witness :
    Message.rapidWind rapidWindDecoded ∈
      (readStep ⟨∅, 0, false⟩ (.frame .text rapidWindPayload)).dispatched ∧
    ((∃ mm, Message.rapidWind rapidWindDecoded = Message.obsSt mm) ∨
     (∃ mm, Message.rapidWind rapidWindDecoded = Message.rapidWind mm)) := by
  have hmem : Message.rapidWind rapidWindDecoded ∈
      (readStep ⟨∅, 0, false⟩ (.frame .text rapidWindPayload)).dispatched := by
    show Message.rapidWind rapidWindDecoded ∈ [Message.rapidWind rapidWindDecoded]
    exact List.mem_singleton.mpr rfl
  exact ⟨hmem, C9_dispatch_only_observations _ _ _ hmem⟩

/-- Claim C10: for every successfully decoded message, `GetDeviceID` returns
the payload's `device_id` (the value of the last such key) paired with `true`
for the two observation variants, and `(-1, false)` for `connection_opened` and
`ack`. -/
theorem C10_GetDeviceID :
    ∀ (fields : List (String × JValue)) (m : Message),
      UnmarshalMessage (.obj fields) = .ok m →
      ((∃ mm, m = Message.obsSt mm ∧ m.GetDeviceID = (mm.DeviceID, true) ∧
          ∀ q : ℚ, lookupLast fields "device_id" = some (.num q) → mm.DeviceID = q.num) ∨
       (∃ mm, m = Message.rapidWind mm ∧ m.GetDeviceID = (mm.DeviceID, true) ∧
          ∀ q : ℚ, lookupLast fields "device_id" = some (.num q) → mm.DeviceID = q.num) ∨
       (∃ mm, m = Message.connectionOpened mm ∧ m.GetDeviceID = (-1, false)) ∨
       (∃ mm, m = Message.ack mm ∧ m.GetDeviceID = (-1, false))) := by
  intro fields m h
  cases hl : lookupLast fields "type" with
  | none =>
    rw [UnmarshalMessage_missing (fun t ht => by rw [hl] at ht; cases ht)] at h
    cases h
  | some v =>
    cases v with
    | str t =>
      simp only [UnmarshalMessage, hl] at h
      by_cases h1 : t = "obs_st"
      · rw [if_pos h1] at h
        rcases hd : decodeMessageObsStFields fields zeroMessageObsSt none with mm | e | s <;>
          rw [hd] at h <;> cases h
        exact Or.inl ⟨mm, rfl, rfl,
          fun q hq => decodeMessageObsStFields_DeviceID fields zeroMessageObsSt none mm q hd hq⟩
      rw [if_neg h1] at h
      by_cases h2 : t = "rapid_wind"
      · rw [if_pos h2] at h
        rcases hd : decodeMessageRapidWindFields fields zeroMessageRapidWind none with mm | e | s <;>
          rw [hd] at h <;> cases h
        exact Or.inr (Or.inl ⟨mm, rfl, rfl,
          fun q hq => decodeMessageRapidWindFields_DeviceID fields zeroMessageRapidWind none mm q hd hq⟩)
      rw [if_neg h2] at h
      by_cases h3 : t = "connection_opened"
      · rw [if_pos h3] at h
        rcases hd : decodeMessageConnectionOpenedFields fields zeroMessageConnectionOpened none
          with mm | e | s <;> rw [hd] at h <;> cases h
        exact Or.inr (Or.inr (Or.inl ⟨mm, rfl, rfl⟩))
      rw [if_neg h3] at h
      by_cases h4 : t = "ack"
      · rw [if_pos h4] at h
        rcases hd : decodeMessageAckFields fields zeroMessageAck none with mm | e | s <;>
          rw [hd] at h <;> cases h
        exact Or.inr (Or.inr (Or.inr ⟨mm, rfl, rfl⟩))
      rw [if_neg h4] at h
      cases h
    | null =>
      rw [UnmarshalMessage_missing (fun t ht => by rw [hl] at ht; cases ht)] at h
      cases h
    | bool b =>
      rw [UnmarshalMessage_missing (fun t ht => by rw [hl] at ht; cases ht)] at h
      cases h
    | num q =>
      rw [UnmarshalMessage_missing (fun t ht => by rw [hl] at ht; cases ht)] at h
      cases h
    | arr es =>
      rw [UnmarshalMessage_missing (fun t ht => by rw [hl] at ht; cases ht)] at h
      cases h
    | obj fs =>
      rw [UnmarshalMessage_missing (fun t ht => by rw [hl] at ht; cases ht)] at h
      cases h

theorem C10_GetDeviceID_witness :
    UnmarshalMessage (.obj [("type", JValue.str "ack"), ("id", JValue.str "x")])
      = .ok (.ack ⟨"x", "ack"⟩) ∧
    ((∃ mm, Message.ack ⟨"x", "ack"⟩ = Message.obsSt mm ∧
        (Message.ack ⟨"x", "ack"⟩).GetDeviceID = (mm.DeviceID, true) ∧
        ∀ q : ℚ, lookupLast [("type", JValue.str "ack"), ("id", JValue.str "x")] "device_id"
          = some (.num q) → mm.DeviceID = q.num) ∨
     (∃ mm, Message.ack ⟨"x", "ack"⟩ = Message.rapidWind mm ∧
        (Message.ack ⟨"x", "ack"⟩).GetDeviceID = (mm.DeviceID, true) ∧
        ∀ q : ℚ, lookupLast [("type", JValue.str "ack"), ("id", JValue.str "x")] "device_id"
          = some (.num q) → mm.DeviceID = q.num) ∨
     (∃ mm, Message.ack ⟨"x", "ack"⟩ = Message.connectionOpened mm ∧
        (Message.ack ⟨"x", "ack"⟩).GetDeviceID = (-1, false)) ∨
     (∃ mm, Message.ack ⟨"x", "ack"⟩ = Message.ack mm ∧
        (Message.ack ⟨"x", "ack"⟩).GetDeviceID = (-1, false))) :=
  ⟨rfl, C10_GetDeviceID [("type", JValue.str "ack"), ("id", JValue.str "x")]
    (.ack ⟨"x", "ack"⟩) rfl⟩

end Weatherflow
